import Mathlib

/-!
Shallow embedding of the notification deduplication / upsert engine of the
billing backend (routes/notifications router plus models/Notification.js).

Modelling conventions, mirroring the JavaScript semantics of the source:
* a JS value that may be `undefined` is an `Option`; `none` is `undefined`;
* the JS `||` fallback chain is modelled by `jsOrStr` / `jsOrInt`
  (`''`, `0` and `undefined` are falsy, exactly as in JS);
* JS `!==` comparison between a document field and a payload field is
  equality of the corresponding `Option`-lifted values;
* timestamps are integer milliseconds (`Int`), `new Date()` is a `now`
  parameter threaded through each operation;
* the MongoDB collection is a `List` of records in natural order;
  `findOne` is `List.find?`; the unique sparse index on `notificationHash`
  is modelled by the duplicate-key branch of the insert; schema enum and
  `required` validation is modelled explicitly;
* `String.prototype.toLowerCase` is modelled on the ASCII range, and
  `crypto.createHash('md5')` is the standard MD5 digest implemented below
  over the UTF-8 bytes of the input.
-/

/-- JS string fallback `a || b`: `undefined` and the empty string are falsy. -/
def jsOrStr (a : Option String) (b : String) : String :=
  match a with
  | some s => if s = "" then b else s
  | none => b

/-- JS numeric fallback `a || b`: `undefined` and `0` are falsy. -/
def jsOrInt (a : Option Int) (b : Int) : Int :=
  match a with
  | some v => if v = 0 then b else v
  | none => b

/-- A JS template literal rendering of a possibly-undefined string
(`undefined` prints as the text "undefined"). -/
def jsShow (a : Option String) : String :=
  match a with
  | some s => s
  | none => "undefined"

/-- ASCII lowercasing of one character, as `toLowerCase` acts on ASCII. -/
def lowerChar (c : Char) : Char :=
  if 65 ≤ c.toNat ∧ c.toNat ≤ 90 then Char.ofNat (c.toNat + 32) else c

/-- `String.prototype.toLowerCase` restricted to the ASCII range. -/
def jsToLowerCase (s : String) : String := String.mk (s.data.map lowerChar)

/-! ### MD5 (the `crypto.createHash('md5')` digest used by the hash deriver) -/

/-- The 64 MD5 sine-derived round constants (RFC 1321 table T). -/
def md5K : List Nat := [
  0xd76aa478, 0xe8c7b756, 0x242070db, 0xc1bdceee,
  0xf57c0faf, 0x4787c62a, 0xa8304613, 0xfd469501,
  0x698098d8, 0x8b44f7af, 0xffff5bb1, 0x895cd7be,
  0x6b901122, 0xfd987193, 0xa679438e, 0x49b40821,
  0xf61e2562, 0xc040b340, 0x265e5a51, 0xe9b6c7aa,
  0xd62f105d, 0x02441453, 0xd8a1e681, 0xe7d3fbc8,
  0x21e1cde6, 0xc33707d6, 0xf4d50d87, 0x455a14ed,
  0xa9e3e905, 0xfcefa3f8, 0x676f02d9, 0x8d2a4c8a,
  0xfffa3942, 0x8771f681, 0x6d9d6122, 0xfde5380c,
  0xa4beea44, 0x4bdecfa9, 0xf6bb4b60, 0xbebfbc70,
  0x289b7ec6, 0xeaa127fa, 0xd4ef3085, 0x04881d05,
  0xd9d4d039, 0xe6db99e5, 0x1fa27cf8, 0xc4ac5665,
  0xf4292244, 0x432aff97, 0xab9423a7, 0xfc93a039,
  0x655b59c3, 0x8f0ccc92, 0xffeff47d, 0x85845dd1,
  0x6fa87e4f, 0xfe2ce6e0, 0xa3014314, 0x4e0811a1,
  0xf7537e82, 0xbd3af235, 0x2ad7d2bb, 0xeb86d391]

/-- The MD5 per-round left-rotation amounts. -/
def md5S : List Nat := [
  7, 12, 17, 22, 7, 12, 17, 22, 7, 12, 17, 22, 7, 12, 17, 22,
  5, 9, 14, 20, 5, 9, 14, 20, 5, 9, 14, 20, 5, 9, 14, 20,
  4, 11, 16, 23, 4, 11, 16, 23, 4, 11, 16, 23, 4, 11, 16, 23,
  6, 10, 15, 21, 6, 10, 15, 21, 6, 10, 15, 21, 6, 10, 15, 21]

/-- 32-bit left rotation on `Nat` (inputs below `2 ^ 32`). -/
def rotl32 (x s : Nat) : Nat := ((x <<< s) + (x >>> (32 - s))) % 4294967296

/-- The MD5 nonlinear round functions F, G, H, I selected by round index. -/
def md5F (i b c d : Nat) : Nat :=
  if i < 16 then (b &&& c) ||| ((b ^^^ 0xffffffff) &&& d)
  else if i < 32 then (d &&& b) ||| ((d ^^^ 0xffffffff) &&& c)
  else if i < 48 then b ^^^ c ^^^ d
  else c ^^^ (b ||| (d ^^^ 0xffffffff))

/-- The MD5 message-word index schedule. -/
def md5G (i : Nat) : Nat :=
  if i < 16 then i
  else if i < 32 then (5 * i + 1) % 16
  else if i < 48 then (3 * i + 5) % 16
  else (7 * i) % 16

/-- One MD5 round applied to the running state. -/
def md5Round (m : List Nat) (st : Nat × Nat × Nat × Nat) (i : Nat) :
    Nat × Nat × Nat × Nat :=
  let a := st.1
  let b := st.2.1
  let c := st.2.2.1
  let d := st.2.2.2
  let x := (a + md5F i b c d + md5K.getD i 0 + m.getD (md5G i) 0) % 4294967296
  (d, (b + rotl32 x (md5S.getD i 0)) % 4294967296, b, c)

/-- One 64-byte MD5 chunk folded into the state. -/
def md5Chunk (st : Nat × Nat × Nat × Nat) (chunk : List Nat) :
    Nat × Nat × Nat × Nat :=
  let m := (List.range 16).map (fun i =>
    chunk.getD (4 * i) 0 + 256 * chunk.getD (4 * i + 1) 0 +
    65536 * chunk.getD (4 * i + 2) 0 + 16777216 * chunk.getD (4 * i + 3) 0)
  let r := (List.range 64).foldl (md5Round m) st
  ((st.1 + r.1) % 4294967296, (st.2.1 + r.2.1) % 4294967296,
   (st.2.2.1 + r.2.2.1) % 4294967296, (st.2.2.2 + r.2.2.2) % 4294967296)

/-- A 64-bit little-endian byte rendering. -/
def word64LE (n : Nat) : List Nat :=
  [n % 256, n / 256 % 256, n / 65536 % 256, n / 16777216 % 256,
   n / 4294967296 % 256, n / 1099511627776 % 256,
   n / 281474976710656 % 256, n / 72057594037927936 % 256]

/-- A 32-bit little-endian byte rendering. -/
def word32LE (n : Nat) : List Nat :=
  [n % 256, n / 256 % 256, n / 65536 % 256, n / 16777216 % 256]

/-- MD5 padding: `0x80`, zeros to 56 mod 64, then the 64-bit bit length. -/
def md5Pad (msg : List Nat) : List Nat :=
  msg ++ [128] ++ List.replicate ((119 - msg.length % 64) % 64) 0 ++
    word64LE ((8 * msg.length) % 18446744073709551616)

/-- Split a byte list into 64-byte chunks. -/
def chunks64 (l : List Nat) : List (List Nat) :=
  match l with
  | [] => []
  | x :: xs => ((x :: xs).take 64) :: chunks64 ((x :: xs).drop 64)
termination_by l.length
decreasing_by simp [List.length_drop]; omega

/-- The 16 MD5 digest bytes of a byte message. -/
def md5Bytes (msg : List Nat) : List Nat :=
  let st := (chunks64 (md5Pad msg)).foldl md5Chunk
    (0x67452301, 0xefcdab89, 0x98badcfe, 0x10325476)
  word32LE st.1 ++ word32LE st.2.1 ++ word32LE st.2.2.1 ++ word32LE st.2.2.2

/-- Lowercase hexadecimal digit for a value below 16. -/
def hexDigit (n : Nat) : Char :=
  if n = 0 then '0' else if n = 1 then '1' else if n = 2 then '2'
  else if n = 3 then '3' else if n = 4 then '4' else if n = 5 then '5'
  else if n = 6 then '6' else if n = 7 then '7' else if n = 8 then '8'
  else if n = 9 then '9' else if n = 10 then 'a' else if n = 11 then 'b'
  else if n = 12 then 'c' else if n = 13 then 'd' else if n = 14 then 'e'
  else 'f'

/-- Two lowercase hex characters per byte (`digest('hex')`). -/
def bytesHexChars : List Nat → List Char
  | [] => []
  | b :: bs => hexDigit (b / 16 % 16) :: hexDigit (b % 16) :: bytesHexChars bs

/-- `crypto.createHash('md5').update(s).digest('hex')` over UTF-8 bytes. -/
def md5Hex (s : String) : String :=
  String.mk (bytesHexChars (md5Bytes (s.toUTF8.data.toList.map (fun b => b.toNat))))

/-! ### The hash key deriver (`generateNotificationHash`) -/

/-- The fields `generateNotificationHash` reads off its (duck-typed)
argument; every other property of the caller's object is ignored. -/
structure HashSource where
  type : Option String
  productId : Option String
  orderId : Option String
  taxId : Option String
  invoiceNo : Option String
  invoiceNumber : Option String
  customerName : Option String
  customer : Option String
  billNumber : Option String
  gstin : Option String
deriving Repr, DecidableEq

/-- The fixed-order, underscore-separated, lowercased identity string. -/
def hashSourceString (h : HashSource) : String :=
  jsToLowerCase
    (jsOrStr h.type "" ++ "_" ++ jsOrStr h.productId "" ++ "_" ++
     jsOrStr h.orderId "" ++ "_" ++ jsOrStr h.taxId "" ++ "_" ++
     jsOrStr h.invoiceNo (jsOrStr h.invoiceNumber "") ++ "_" ++
     jsOrStr h.customerName (jsOrStr h.customer "") ++ "_" ++
     jsOrStr h.billNumber "" ++ "_" ++ jsOrStr h.gstin "")

/-- `generateNotificationHash`: MD5 hex digest of the identity string. -/
def generateNotificationHash (h : HashSource) : String :=
  md5Hex (hashSourceString h)

/-! ### Data model (models/Notification.js)

The mongoose schema is strict: object keys without a schema path
(`createdBy`, `updatedBy`, `preserveTimestamp`) are silently dropped on
write, so they do not appear on the stored record.  `timestamps: true`
adds a `createdAt` managed by mongoose (set at creation, not changed by
updates).  `_id` is modelled as a `Nat` assigned from a fresh-id counter. -/

def typeEnum : List String :=
  ["Low Stock", "Out of Stock", "Payment Alert", "GST Alert", "System Alert"]

def priorityEnum : List String := ["low", "medium", "high"]

def colorEnum : List String :=
  ["red", "orange", "yellow", "green", "blue", "purple", "gray"]

/-- A persisted notification document.  String paths with schema defaults
(`priority`, `color`, `icon`) and the Boolean flags are total; every other
path may be absent. -/
structure StoredNotification where
  id : Nat
  type : String
  title : String
  message : String
  productId : Option String := none
  productName : Option String := none
  currentStock : Option Int := none
  minStock : Option Int := none
  orderId : Option String := none
  taxId : Option String := none
  invoiceNo : Option String := none
  billNumber : Option String := none
  invoiceNumber : Option String := none
  customerName : Option String := none
  customer : Option String := none
  customerPhone : Option String := none
  gstin : Option String := none
  amount : Option Int := none
  paymentMode : Option String := none
  daysSince : Option Int := none
  priority : String := "medium"
  color : String := "gray"
  icon : String := "Bell"
  isRead : Bool := false
  isResolved : Bool := false
  resolutionNote : Option String := none
  timestamp : Int := 0
  lastUpdated : Int := 0
  resolvedAt : Option Int := none
  notificationHash : Option String := none
  status : Option String := none
  isHighValue : Option Bool := none
  createdAt : Int := 0
deriving Repr, DecidableEq

/-- A candidate payload handed to `upsertNotification` (a plain JS object:
every field may be absent). -/
structure NotificationData where
  type : Option String := none
  title : Option String := none
  message : Option String := none
  productId : Option String := none
  productName : Option String := none
  currentStock : Option Int := none
  minStock : Option Int := none
  orderId : Option String := none
  taxId : Option String := none
  invoiceNo : Option String := none
  billNumber : Option String := none
  invoiceNumber : Option String := none
  customerName : Option String := none
  customer : Option String := none
  customerPhone : Option String := none
  gstin : Option String := none
  amount : Option Int := none
  paymentMode : Option String := none
  daysSince : Option Int := none
  priority : Option String := none
  color : Option String := none
  icon : Option String := none
  isRead : Option Bool := none
  isResolved : Option Bool := none
  status : Option String := none
  isHighValue : Option Bool := none
  notificationHash : Option String := none
  preserveTimestamp : Option Bool := none
deriving Repr, DecidableEq

/-- The identity fields of a candidate payload as the hash deriver sees it. -/
def NotificationData.hashSource (nd : NotificationData) : HashSource :=
  { type := nd.type, productId := nd.productId, orderId := nd.orderId,
    taxId := nd.taxId, invoiceNo := nd.invoiceNo,
    invoiceNumber := nd.invoiceNumber, customerName := nd.customerName,
    customer := nd.customer, billNumber := nd.billNumber, gstin := nd.gstin }

/-- The identity fields of a stored record, for hash re-derivation in the
feed handler. -/
def StoredNotification.hashSource (r : StoredNotification) : HashSource :=
  { type := some r.type, productId := r.productId, orderId := r.orderId,
    taxId := r.taxId, invoiceNo := r.invoiceNo,
    invoiceNumber := r.invoiceNumber, customerName := r.customerName,
    customer := r.customer, billNumber := r.billNumber, gstin := r.gstin }

/-- Schema validation for a document insert: `type`, `title`, `message`
are required (a mongoose required String also rejects the empty string)
and the enum paths must hold an allowed value when present. -/
def validCreate (nd : NotificationData) : Bool :=
  (match nd.type with | some t => typeEnum.contains t | none => false) &&
  (match nd.title with | some t => decide (t ≠ "") | none => false) &&
  (match nd.message with | some m => decide (m ≠ "") | none => false) &&
  (match nd.priority with | some p => priorityEnum.contains p | none => true) &&
  (match nd.color with | some c => colorEnum.contains c | none => true)

/-- `runValidators` on an update: each path being set must satisfy its
validators. -/
def validUpdate (nd : NotificationData) : Bool :=
  (match nd.type with | some t => typeEnum.contains t | none => true) &&
  (match nd.title with | some t => decide (t ≠ "") | none => true) &&
  (match nd.message with | some m => decide (m ≠ "") | none => true) &&
  (match nd.priority with | some p => priorityEnum.contains p | none => true) &&
  (match nd.color with | some c => colorEnum.contains c | none => true)

/-- Socket.IO broadcasts emitted to all connected clients. -/
inductive BroadcastEvent where
  | createdEvt (n : StoredNotification)
  | updatedEvt (n : StoredNotification)
  | resolvedEvt (id : Nat) (hash : Option String) (note : String)
  | deletedEvt (id : Nat)
  | stockUpdatedEvt (productId : Option String)
deriving Repr, DecidableEq

/-- The value `upsertNotification` resolves with. -/
structure UpsertOutcome where
  notification : StoredNotification
  isNew : Bool
  updated : Bool
  action : String
deriving Repr, DecidableEq

/-! ### The upsert engine (`upsertNotification`) -/

/-- The in-place update applied by `findOneAndUpdate`: a `$set` of every
key present on the payload, plus `lastUpdated`, plus the `timestamp`
ternary (`preserveTimestamp ? existing.timestamp : new Date()`).
`createdBy`-style non-schema keys are dropped by strict mode;
`createdAt` is never touched by an update. -/
def applyUpdate (r : StoredNotification) (nd : NotificationData) (now : Int) :
    StoredNotification :=
  { r with
    type := nd.type.getD r.type
    title := nd.title.getD r.title
    message := nd.message.getD r.message
    productId := match nd.productId with | some v => some v | none => r.productId
    productName := match nd.productName with | some v => some v | none => r.productName
    currentStock := match nd.currentStock with | some v => some v | none => r.currentStock
    minStock := match nd.minStock with | some v => some v | none => r.minStock
    orderId := match nd.orderId with | some v => some v | none => r.orderId
    taxId := match nd.taxId with | some v => some v | none => r.taxId
    invoiceNo := match nd.invoiceNo with | some v => some v | none => r.invoiceNo
    billNumber := match nd.billNumber with | some v => some v | none => r.billNumber
    invoiceNumber := match nd.invoiceNumber with | some v => some v | none => r.invoiceNumber
    customerName := match nd.customerName with | some v => some v | none => r.customerName
    customer := match nd.customer with | some v => some v | none => r.customer
    customerPhone := match nd.customerPhone with | some v => some v | none => r.customerPhone
    gstin := match nd.gstin with | some v => some v | none => r.gstin
    amount := match nd.amount with | some v => some v | none => r.amount
    paymentMode := match nd.paymentMode with | some v => some v | none => r.paymentMode
    daysSince := match nd.daysSince with | some v => some v | none => r.daysSince
    priority := nd.priority.getD r.priority
    color := nd.color.getD r.color
    icon := nd.icon.getD r.icon
    isRead := nd.isRead.getD r.isRead
    isResolved := nd.isResolved.getD r.isResolved
    status := match nd.status with | some v => some v | none => r.status
    isHighValue := match nd.isHighValue with | some v => some v | none => r.isHighValue
    notificationHash := match nd.notificationHash with
      | some v => some v
      | none => r.notificationHash
    lastUpdated := now
    timestamp := if nd.preserveTimestamp = some true then r.timestamp else now }

/-- The document built by `new Notification({...notificationData,
notificationHash, timestamp: now, lastUpdated: now, isResolved: false})`
with the schema defaults applied. -/
def mkCreated (nd : NotificationData) (hash : String) (now : Int) (id : Nat) :
    StoredNotification :=
  { id := id
    type := nd.type.getD ""
    title := nd.title.getD ""
    message := nd.message.getD ""
    productId := nd.productId
    productName := nd.productName
    currentStock := nd.currentStock
    minStock := nd.minStock
    orderId := nd.orderId
    taxId := nd.taxId
    invoiceNo := nd.invoiceNo
    billNumber := nd.billNumber
    invoiceNumber := nd.invoiceNumber
    customerName := nd.customerName
    customer := nd.customer
    customerPhone := nd.customerPhone
    gstin := nd.gstin
    amount := nd.amount
    paymentMode := nd.paymentMode
    daysSince := nd.daysSince
    priority := nd.priority.getD "medium"
    color := nd.color.getD "gray"
    icon := nd.icon.getD "Bell"
    isRead := nd.isRead.getD false
    isResolved := false
    resolutionNote := none
    timestamp := now
    lastUpdated := now
    resolvedAt := none
    notificationHash := some hash
    status := nd.status
    isHighValue := nd.isHighValue
    createdAt := now }

/-- The `hasChanges` comparison of the upsert engine, field by field in
source order.  A document path compares `!==` against the raw payload
property, so a path that is set on the document but absent from the
payload counts as a change. -/
def hasChanges (r : StoredNotification) (nd : NotificationData) : Bool :=
  r.currentStock != nd.currentStock ||
  r.amount != nd.amount ||
  r.daysSince != nd.daysSince ||
  some r.priority != nd.priority ||
  some r.type != nd.type ||
  some r.message != nd.message ||
  some r.title != nd.title ||
  some r.isRead != nd.isRead ||
  some r.isResolved != nd.isResolved ||
  some r.color != nd.color ||
  r.paymentMode != nd.paymentMode ||
  r.customerPhone != nd.customerPhone ||
  r.invoiceNumber != nd.invoiceNumber

/-- The 30-day dedup retention window in milliseconds. -/
def thirtyDaysMs : Int := 2592000000

/-- The hash the upsert engine works with: the payload's own
`notificationHash` when truthy, else a derived one. -/
def upsertLookupHash (nd : NotificationData) : String :=
  jsOrStr nd.notificationHash (generateNotificationHash nd.hashSource)

/-- The dedup `findOne` filter: hash match plus the trailing 30-day
`timestamp` window.  It does not mention `isResolved`. -/
def dedupFilter (hash : String) (now : Int) (r : StoredNotification) : Bool :=
  r.notificationHash == some hash && decide (now - thirtyDaysMs ≤ r.timestamp)

/-- The recovery `findOne` filter: hash match only. -/
def hashOnlyFilter (hash : String) (r : StoredNotification) : Bool :=
  r.notificationHash == some hash

/-- `upsertNotification(notificationData, io, source)` acting on the
store.  Returns the resolved outcome, the new store, the next fresh id
and the broadcasts emitted; `Except.error` models a rejected promise
(`ValidationError`, or an unrecoverable duplicate-key rethrow).  The
dedup `findOne` filters only on the hash and the 30-day `timestamp`
window — it does not filter on `isResolved`.  The duplicate-key branch
models the sparse unique index on `notificationHash`. -/
def upsertNotification (store : List StoredNotification) (nextId : Nat)
    (nd : NotificationData) (now : Int) :
    Except String (UpsertOutcome × List StoredNotification × Nat × List BroadcastEvent) :=
  let notificationHash := upsertLookupHash nd
  match store.find? (dedupFilter notificationHash now) with
  | some existing =>
    if hasChanges existing nd then
      if validUpdate nd then
        let updatedRec := applyUpdate existing nd now
        if updatedRec.notificationHash ≠ existing.notificationHash ∧
            ∃ r ∈ store, r.id ≠ existing.id ∧
              r.notificationHash = updatedRec.notificationHash then
          -- the write violates the unique index: error.code === 11000,
          -- recovery re-reads by error.keyValue.notificationHash
          match store.find? (fun r => r.notificationHash == updatedRec.notificationHash) with
          | some rec =>
            .ok ({ notification := rec, isNew := false, updated := false,
                   action := "recovered" }, store, nextId, [])
          | none => .error "E11000 duplicate key"
        else
          .ok ({ notification := updatedRec, isNew := false, updated := true,
                 action := "updated" },
               store.map (fun r => if r.id = existing.id then updatedRec else r),
               nextId, [.updatedEvt updatedRec])
      else .error "ValidationError"
    else
      .ok ({ notification := existing, isNew := false, updated := false,
             action := "unchanged" }, store, nextId, [])
  | none =>
    if validCreate nd then
      match store.find? (hashOnlyFilter notificationHash) with
      | some existing2 =>
        -- save() hits the unique index: error.code === 11000, recovery
        -- re-reads the conflicting record and returns it
        .ok ({ notification := existing2, isNew := false, updated := false,
               action := "recovered" }, store, nextId, [])
      | none =>
        let newRec := mkCreated nd notificationHash now nextId
        .ok ({ notification := newRec, isNew := true, updated := false,
               action := "created" },
             store ++ [newRec], nextId + 1, [.createdEvt newRec])
    else .error "ValidationError"

/-! ### Stock check (`POST /check-stock`) -/

def stockTypes : List String := ["Low Stock", "Out of Stock"]

/-- The candidate payload of the out-of-stock case of `POST /check-stock`. -/
def outOfStockData (productId productName : Option String) (cs ms : Int) :
    NotificationData :=
  { type := some "Out of Stock"
    title := some "Out of Stock Alert"
    message := some (jsShow productName ++ " is completely out of stock")
    productName := productName
    productId := productId
    currentStock := some cs
    minStock := some ms
    priority := some "high"
    color := some "red"
    icon := some "Package" }

/-- The candidate payload of the low-stock case of `POST /check-stock`. -/
def lowStockData (productId productName : Option String) (cs ms : Int) :
    NotificationData :=
  { type := some "Low Stock"
    title := some (if cs ≤ 2 then "Critical Stock Alert" else "Low Stock Warning")
    message := some (jsShow productName ++ " stock is " ++
      (if cs ≤ 2 then "critically" else "") ++ " low (" ++ toString cs ++
      " units remaining)")
    productName := productName
    productId := productId
    currentStock := some cs
    minStock := some ms
    priority := some (if cs ≤ 2 then "high" else if cs ≤ 5 then "medium" else "low")
    color := some (if cs ≤ 2 then "red" else "orange")
    icon := some "Package" }

/-- The JSON shapes `POST /check-stock` responds with. -/
inductive CheckStockResponse where
  | missingFields
  | alertResult (status : String) (action : String) (n : StoredNotification)
  | alertsDeleted (deletedCount : Nat)
  | noAlertNeeded
deriving Repr, DecidableEq

/-- `POST /check-stock`: out-of-stock and low-stock cases upsert an alert;
the sufficient-stock fallthrough deletes the product's stock alerts
outright (`deleteMany`, unfiltered by `isResolved`) when an unresolved
one exists.  An upsert rejection surfaces as the route's 500 error. -/
def checkStock (store : List StoredNotification) (nextId : Nat)
    (productId productName : Option String)
    (currentStock minStock : Option Int) (now : Int) :
    Except String (CheckStockResponse × List StoredNotification × Nat × List BroadcastEvent) :=
  match currentStock, minStock with
  | none, _ => .ok (.missingFields, store, nextId, [])
  | _, none => .ok (.missingFields, store, nextId, [])
  | some cs, some ms =>
    if cs = 0 then
      match upsertNotification store nextId
        (outOfStockData productId productName cs ms) now with
      | .error e => .error e
      | .ok (outcome, store1, nextId1, evts) =>
        .ok (.alertResult
              (if outcome.action = "created" then "alert_created" else "alert_updated")
              outcome.action outcome.notification,
             store1, nextId1, evts)
    else if 0 < cs ∧ cs ≤ ms then
      match upsertNotification store nextId
        (lowStockData productId productName cs ms) now with
      | .error e => .error e
      | .ok (outcome, store1, nextId1, evts) =>
        .ok (.alertResult
              (if outcome.action = "created" then "alert_created" else "alert_updated")
              outcome.action outcome.notification,
             store1, nextId1, evts)
    else
      let existing := store.filter (fun r =>
        r.productId == productId && stockTypes.contains r.type && !r.isResolved)
      if existing.isEmpty then
        .ok (.noAlertNeeded, store, nextId, [])
      else
        let deleted := store.filter (fun r =>
          r.productId == productId && stockTypes.contains r.type)
        .ok (.alertsDeleted deleted.length,
             store.filter (fun r =>
               !(r.productId == productId && stockTypes.contains r.type)),
             nextId,
             existing.map (fun n => .deletedEvt n.id) ++ [.stockUpdatedEvt productId])

/-! ### Direct mutations (read / resolve / delete / clear) -/

/-- `PUT /:id/read`: flag the record read; 404 if absent. -/
def markReadById (store : List StoredNotification) (id : Nat) (now : Int) :
    Except String (StoredNotification × List StoredNotification × List BroadcastEvent) :=
  match store.find? (fun r => r.id == id) with
  | none => .error "NotFound"
  | some n =>
    let upd := { n with isRead := true, lastUpdated := now }
    .ok (upd, store.map (fun r => if r.id = id then upd else r), [.updatedEvt upd])

/-- The `findByIdAndUpdate` payload of `PUT /:id/resolve`. -/
def resolvedVersion (n : StoredNotification) (resolutionNote : Option String)
    (now : Int) : StoredNotification :=
  { n with
    isResolved := true
    isRead := true
    resolutionNote := some (jsOrStr resolutionNote "Manually resolved")
    resolvedAt := some now
    lastUpdated := now }

/-- `PUT /:id/resolve`: flag the record resolved (and read), stamping
`resolutionNote`, `resolvedAt` and `lastUpdated`; the record is not
deleted.  404 if absent. -/
def resolveById (store : List StoredNotification) (id : Nat)
    (resolutionNote : Option String) (now : Int) :
    Except String (StoredNotification × List StoredNotification × List BroadcastEvent) :=
  match store.find? (fun r => r.id == id) with
  | none => .error "NotFound"
  | some n =>
    let upd := resolvedVersion n resolutionNote now
    .ok (upd, store.map (fun r => if r.id = id then upd else r),
         [.resolvedEvt n.id n.notificationHash (jsOrStr resolutionNote "Manually resolved")])

/-- `PUT /mark-all-read`: flag every unresolved unread record read. -/
def markAllRead (store : List StoredNotification) (now : Int) :
    List StoredNotification × Nat × List BroadcastEvent :=
  let targets := store.filter (fun r => !r.isResolved && !r.isRead)
  (store.map (fun r => if !r.isResolved && !r.isRead
      then { r with isRead := true, lastUpdated := now } else r),
   targets.length,
   targets.map (fun n => .updatedEvt { n with isRead := true }))

/-- `DELETE /:id`: remove the record; 404 if absent. -/
def deleteById (store : List StoredNotification) (id : Nat) :
    Except String (List StoredNotification × List BroadcastEvent) :=
  match store.find? (fun r => r.id == id) with
  | none => .error "NotFound"
  | some n =>
    .ok (store.filter (fun r => decide (r.id ≠ id)), [.deletedEvt n.id])

/-- `DELETE /clear-resolved`: delete every record that is resolved or
merely read (`$or: [isResolved, isRead]`). -/
def clearResolved (store : List StoredNotification) :
    List StoredNotification × Nat × List BroadcastEvent :=
  let matched := store.filter (fun r => r.isResolved || r.isRead)
  (store.filter (fun r => !(r.isResolved || r.isRead)),
   matched.length,
   matched.map (fun n => .deletedEvt n.id))

/-- The resolution sweep both alert generators run for paid source
records: `updateMany` flags every unresolved record with the hash as
resolved, and one resolution broadcast is emitted per affected record. -/
def resolveByHashSweep (store : List StoredNotification) (hash : String)
    (note : String) (now : Int) :
    List StoredNotification × List BroadcastEvent :=
  let existing := store.filter (fun r =>
    r.notificationHash == some hash && !r.isResolved)
  (store.map (fun r =>
      if r.notificationHash == some hash && !r.isResolved
      then { r with
        isResolved := true
        isRead := true
        resolutionNote := some note
        resolvedAt := some now
        lastUpdated := now }
      else r),
   existing.map (fun a => .resolvedEvt a.id (some hash) note))

/-! ### Alert generators (GST / payment) and the feed read -/

/-- A pending or paid tax entry as the GST generator reads it
(`_id` rendered through `toString`). -/
structure TaxEntry where
  tid : String
  date : Option Int := none
  createdAt : Option Int := none
  invoiceNo : Option String := none
  customer : Option String := none
  gstin : Option String := none
  totalTax : Option Int := none
  totalAmount : Option Int := none
  status : Option String := none
deriving Repr, DecidableEq

/-- An order as the payment generator reads it. -/
structure OrderRec where
  orderId : Option String := none
  date : Option Int := none
  createdAt : Option Int := none
  billNumber : Option String := none
  invoiceNumber : Option String := none
  customerName : Option String := none
  customerPhone : Option String := none
  phone : Option String := none
  totalAmount : Option Int := none
  amount : Option Int := none
  paymentMode : Option String := none
  paymentStatus : Option String := none
deriving Repr, DecidableEq

/-- Milliseconds per day, the divisor of the elapsed-days computation. -/
def dayMs : Int := 86400000

/-- Comma insertion over reversed decimal digits (`toLocaleString`
grouping under Node's default en-US locale). -/
def insertCommasRev : List Char → Nat → List Char
  | [], _ => []
  | c :: cs, k =>
    c :: (if (k + 1) % 3 = 0 ∧ cs ≠ [] then
      ',' :: insertCommasRev cs (k + 1) else insertCommasRev cs (k + 1))

/-- `Number.prototype.toLocaleString` for integers. -/
def jsLocaleString (n : Int) : String :=
  (if n < 0 then "-" else "") ++
    String.mk ((insertCommasRev (toString n.natAbs).data.reverse 0).reverse)

/-- The candidate payload the GST generator derives from one tax entry. -/
def gstCandidate (t : TaxEntry) (now : Int) : NotificationData :=
  let taxDate := jsOrInt t.date (jsOrInt t.createdAt now)
  let daysSinceEntry := Int.fdiv (now - taxDate) dayMs
  let taxAmount := jsOrInt t.totalTax (jsOrInt t.totalAmount 0)
  let isHighValue := 10000 ≤ taxAmount
  let alertTitle :=
    if 7 ≤ daysSinceEntry then "GST Payment Overdue!"
    else if 3 ≤ daysSinceEntry then "GST Payment Due Soon"
    else "GST Payment Pending"
  let priority :=
    if 7 ≤ daysSinceEntry then "high" else "medium"
  let color :=
    if 7 ≤ daysSinceEntry then "red"
    else if 3 ≤ daysSinceEntry then "orange"
    else "blue"
  let messageStart :=
    if 7 ≤ daysSinceEntry then
      "GST payment overdue for " ++ toString daysSinceEntry ++ " days"
    else if 3 ≤ daysSinceEntry then
      "GST payment due in " ++ toString (7 - daysSinceEntry) ++ " days"
    else
      "GST payment pending (" ++ toString daysSinceEntry ++ " days)"
  { type := some "GST Alert"
    title := some alertTitle
    message := some (messageStart ++ " for invoice " ++ jsOrStr t.invoiceNo t.tid ++
      ". Customer: " ++ jsOrStr t.customer "Unknown")
    taxId := some t.tid
    invoiceNo := some (jsOrStr t.invoiceNo ("TAX-" ++ t.tid))
    customer := some (jsOrStr t.customer "Unknown Customer")
    gstin := some (jsOrStr t.gstin "N/A")
    amount := some taxAmount
    isHighValue := some isHighValue
    daysSince := some daysSinceEntry
    status := some (jsOrStr t.status "Unknown")
    isRead := some false
    color := some color
    icon := some "FileText"
    priority := some (if isHighValue then "high" else priority)
    isResolved := some false }

/-- `generateGSTAlerts`: upsert one candidate per pending/draft tax
entry (each wrapped in its own try/catch, so one failed upsert skips to
the next entry), then resolve the alerts of paid entries.  The two
store fetches are passed in as outcomes; a failed pending fetch hits
the inner catch and yields no alerts, a failed paid fetch hits the
outer catch, which also returns an empty alert list while keeping the
store writes already made.  The function never rejects. -/
def generateGSTAlerts (store : List StoredNotification) (nextId : Nat)
    (taxFetch paidFetch : Except String (List TaxEntry)) (now : Int) :
    List StoredNotification × List StoredNotification × Nat × List BroadcastEvent :=
  match taxFetch with
  | .error _ => ([], store, nextId, [])
  | .ok entries =>
    let step := fun (st : List StoredNotification × List StoredNotification × Nat × List BroadcastEvent)
        (t : TaxEntry) =>
      let (alerts, store0, id0, evts) := st
      if t.tid = "" then st
      else
        match upsertNotification store0 id0 (gstCandidate t now) now with
        | .error _ => st
        | .ok (outcome, store1, id1, newEvts) =>
          (if outcome.action = "created" ∨ outcome.action = "updated"
           then alerts ++ [outcome.notification] else alerts,
           store1, id1, evts ++ newEvts)
    let (alerts, store1, id1, evts1) := entries.foldl step ([], store, nextId, [])
    match paidFetch with
    | .error _ => ([], store1, id1, evts1)
    | .ok paid =>
      let sweep := fun (st : List StoredNotification × List BroadcastEvent) (t : TaxEntry) =>
        let hash := generateNotificationHash
          { type := some "GST Alert", productId := none, orderId := none,
            taxId := some t.tid, invoiceNo := none, invoiceNumber := none,
            customerName := none, customer := none, billNumber := none,
            gstin := none }
        let note := "GST payment marked as " ++ jsShow t.status
        let (store2, newEvts) := resolveByHashSweep st.1 hash note now
        (store2, st.2 ++ newEvts)
      let (store2, evts2) := paid.foldl sweep (store1, [])
      (alerts, store2, id1, evts1 ++ evts2)

/-- The candidate payload the payment generator derives from one order. -/
def paymentCandidate (o : OrderRec) (now : Int) : NotificationData :=
  let orderDate := jsOrInt o.date (jsOrInt o.createdAt now)
  let daysSinceOrder := Int.fdiv (now - orderDate) dayMs
  let orderAmount := jsOrInt o.totalAmount (jsOrInt o.amount 0)
  let isHighValue := 5000 ≤ orderAmount
  let alertTitle :=
    if 7 ≤ daysSinceOrder then
      if isHighValue then "⚠️ High-Value Payment Severely Overdue!"
      else "Payment Severely Overdue!"
    else if 3 ≤ daysSinceOrder then
      if isHighValue then "⚠️ High-Value Payment Overdue" else "Payment Overdue"
    else
      if isHighValue then "⚠️ High-Value Payment Pending" else "Payment Pending"
  let priority :=
    if 7 ≤ daysSinceOrder then "high"
    else if 3 ≤ daysSinceOrder then (if isHighValue then "high" else "medium")
    else "medium"
  let color :=
    if 7 ≤ daysSinceOrder then "red"
    else if 3 ≤ daysSinceOrder then "orange"
    else "blue"
  let messageStart :=
    if 7 ≤ daysSinceOrder then
      "Payment severely overdue for " ++ toString daysSinceOrder ++ " days"
    else if 3 ≤ daysSinceOrder then
      "Payment overdue for " ++ toString daysSinceOrder ++ " days"
    else
      "Payment pending for " ++ toString daysSinceOrder ++ " days"
  { type := some "Payment Alert"
    title := some alertTitle
    message := some (messageStart ++ ". Customer: " ++
      jsOrStr o.customerName "Unknown" ++ ". Amount: ₹" ++
      jsLocaleString orderAmount)
    orderId := o.orderId
    billNumber := some (jsOrStr o.billNumber
      (jsOrStr o.invoiceNumber ("ORD-" ++ jsShow o.orderId)))
    customerName := some (jsOrStr o.customerName "Unknown Customer")
    customerPhone := some (jsOrStr o.customerPhone (jsOrStr o.phone "N/A"))
    amount := some orderAmount
    paymentMode := some (jsOrStr o.paymentMode "Unknown")
    invoiceNumber := some (jsOrStr o.billNumber
      (jsOrStr o.invoiceNumber ("INV-" ++ jsShow o.orderId)))
    status := none
    isHighValue := some isHighValue
    daysSince := some daysSinceOrder
    isRead := some false
    color := some color
    icon := some (if isHighValue then "DollarSign" else "CreditCard")
    priority := some priority
    isResolved := some false }

/-- `generatePaymentAlerts`, structured exactly as the GST generator:
per-order upserts each in their own try/catch, then the paid-order
resolution sweep; never rejects. -/
def generatePaymentAlerts (store : List StoredNotification) (nextId : Nat)
    (orderFetch paidFetch : Except String (List OrderRec)) (now : Int) :
    List StoredNotification × List StoredNotification × Nat × List BroadcastEvent :=
  match orderFetch with
  | .error _ => ([], store, nextId, [])
  | .ok orders =>
    let step := fun (st : List StoredNotification × List StoredNotification × Nat × List BroadcastEvent)
        (o : OrderRec) =>
      let (alerts, store0, id0, evts) := st
      if jsOrStr o.orderId "" = "" then st
      else
        match upsertNotification store0 id0 (paymentCandidate o now) now with
        | .error _ => st
        | .ok (outcome, store1, id1, newEvts) =>
          (if outcome.action = "created" ∨ outcome.action = "updated"
           then alerts ++ [outcome.notification] else alerts,
           store1, id1, evts ++ newEvts)
    let (alerts, store1, id1, evts1) := orders.foldl step ([], store, nextId, [])
    match paidFetch with
    | .error _ => ([], store1, id1, evts1)
    | .ok paid =>
      let sweep := fun (st : List StoredNotification × List BroadcastEvent) (o : OrderRec) =>
        let hash := generateNotificationHash
          { type := some "Payment Alert", productId := none,
            orderId := o.orderId, taxId := none, invoiceNo := none,
            invoiceNumber := none, customerName := none, customer := none,
            billNumber := none, gstin := none }
        let note := "Payment marked as " ++ jsShow o.paymentStatus
        let (store2, newEvts) := resolveByHashSweep st.1 hash note now
        (store2, st.2 ++ newEvts)
      let (store2, evts2) := paid.foldl sweep (store1, [])
      (alerts, store2, id1, evts1 ++ evts2)

/-- Stable insertion into a list kept in descending key order. -/
def insertKeyDesc (key : StoredNotification → Int) (x : StoredNotification) :
    List StoredNotification → List StoredNotification
  | [] => [x]
  | y :: ys => if key y < key x then x :: y :: ys else y :: insertKeyDesc key x ys

/-- Sort descending by an integer key (`sort({ timestamp: -1 })` and the
feed's final comparator). -/
def sortKeyDesc (key : StoredNotification → Int) (l : List StoredNotification) :
    List StoredNotification :=
  l.foldr (insertKeyDesc key) []

/-- The dedup `Map` of the feed handler: first item with a given hash
wins, insertion order preserved; the key is the stored hash or, when
that is falsy, a hash re-derived from the record's fields. -/
def feedDedup (acc : List (String × StoredNotification)) (item : StoredNotification) :
    List (String × StoredNotification) :=
  let hash := jsOrStr item.notificationHash (generateNotificationHash item.hashSource)
  if acc.any (fun p => p.1 == hash) then acc else acc ++ [(hash, item)]

/-- The sort key of the feed's final comparator
(`new Date(x.timestamp || x.createdAt || 0)`). -/
def feedSortKey (n : StoredNotification) : Int :=
  jsOrInt (some n.timestamp) (jsOrInt (some n.createdAt) 0)

/-- The active-feed store query:
`find({ isResolved: false }).sort({ timestamp: -1 }).limit(100)`. -/
def activeFeedQuery (store : List StoredNotification) : List StoredNotification :=
  (sortKeyDesc (fun r => r.timestamp) (store.filter (fun r => !r.isResolved))).take 100

/-- `GET /` (the feed read): query the unresolved stored records (newest
first, capped at 100), dedup them by hash, run both alert generators —
each inside its own try/catch, though neither ever rejects — merge
their alerts, drop anything resolved, and sort.  The four fetch
outcomes parameterise what the generators' own store reads returned. -/
def getNotificationsFeed (store : List StoredNotification) (nextId : Nat)
    (taxFetch paidTaxFetch : Except String (List TaxEntry))
    (orderFetch paidOrderFetch : Except String (List OrderRec)) (now : Int) :
    List StoredNotification × List StoredNotification × Nat × List BroadcastEvent :=
  let stored := activeFeedQuery store
  let map0 := stored.foldl feedDedup []
  let (gstAlerts, store1, id1, evts1) :=
    generateGSTAlerts store nextId taxFetch paidTaxFetch now
  let map1 := gstAlerts.foldl feedDedup map0
  let (payAlerts, store2, id2, evts2) :=
    generatePaymentAlerts store1 id1 orderFetch paidOrderFetch now
  let map2 := payAlerts.foldl feedDedup map1
  let unique := (map2.map Prod.snd).filter (fun n => !n.isResolved)
  (sortKeyDesc feedSortKey unique, store2, id2, evts1 ++ evts2)

/-! ### Helper accessors and lemmas -/

/-- Placeholder record for total accessors below. -/
def fallbackRec : StoredNotification :=
  { id := 0, type := "", title := "", message := "" }

/-- The action string an upsert resolves with ("error" on rejection). -/
def upsertAction (store : List StoredNotification) (nextId : Nat)
    (nd : NotificationData) (now : Int) : String :=
  match upsertNotification store nextId nd now with
  | .ok (o, _, _, _) => o.action
  | .error _ => "error"

/-- The store after an upsert (unchanged on rejection). -/
def upsertStoreAfter (store : List StoredNotification) (nextId : Nat)
    (nd : NotificationData) (now : Int) : List StoredNotification :=
  match upsertNotification store nextId nd now with
  | .ok (_, st, _, _) => st
  | .error _ => store

/-- The broadcasts an upsert emits (none on rejection). -/
def upsertEventsAfter (store : List StoredNotification) (nextId : Nat)
    (nd : NotificationData) (now : Int) : List BroadcastEvent :=
  match upsertNotification store nextId nd now with
  | .ok (_, _, _, ev) => ev
  | .error _ => []

/-- The record an upsert resolves with. -/
def upsertRecAfter (store : List StoredNotification) (nextId : Nat)
    (nd : NotificationData) (now : Int) : StoredNotification :=
  match upsertNotification store nextId nd now with
  | .ok (o, _, _, _) => o.notification
  | .error _ => fallbackRec

/-! ### Reachable store states

Every route handler's effect on the notification collection is a
composition of the primitive mutations below (the feed read and the
alert generators are sequences of upserts and resolution sweeps), so
the reflexive-transitive closure of `Step` from the empty collection
covers every store state the router can produce. -/

/-- The persistent state: the collection plus the fresh-id counter. -/
structure DB where
  store : List StoredNotification
  nextId : Nat

/-- Store well-formedness: ids are fresh-bounded and duplicate-free, and
the sparse unique index holds — two records carrying the same
`notificationHash` value are the same record. -/
def StoreWF (db : DB) : Prop :=
  (∀ r ∈ db.store, r.id < db.nextId) ∧
  (db.store.map (fun r => r.id)).Nodup ∧
  (∀ r1 ∈ db.store, ∀ r2 ∈ db.store, ∀ h : String,
    r1.notificationHash = some h → r2.notificationHash = some h → r1 = r2)

/-- One router-level mutation of the collection. -/
inductive Step : DB → DB → Prop where
  | upsert (db : DB) (nd : NotificationData) (now : Int) (out : UpsertOutcome)
      (store2 : List StoredNotification) (id2 : Nat) (evts : List BroadcastEvent) :
      upsertNotification db.store db.nextId nd now = .ok (out, store2, id2, evts) →
      Step db ⟨store2, id2⟩
  | stockCheck (db : DB) (pid pname : Option String) (cs ms : Option Int)
      (now : Int) (resp : CheckStockResponse) (store2 : List StoredNotification)
      (id2 : Nat) (evts : List BroadcastEvent) :
      checkStock db.store db.nextId pid pname cs ms now = .ok (resp, store2, id2, evts) →
      Step db ⟨store2, id2⟩
  | readOne (db : DB) (id : Nat) (now : Int) (n : StoredNotification)
      (store2 : List StoredNotification) (evts : List BroadcastEvent) :
      markReadById db.store id now = .ok (n, store2, evts) →
      Step db ⟨store2, db.nextId⟩
  | resolveOne (db : DB) (id : Nat) (note : Option String) (now : Int)
      (n : StoredNotification) (store2 : List StoredNotification)
      (evts : List BroadcastEvent) :
      resolveById db.store id note now = .ok (n, store2, evts) →
      Step db ⟨store2, db.nextId⟩
  | readAll (db : DB) (now : Int) :
      Step db ⟨(markAllRead db.store now).1, db.nextId⟩
  | deleteOne (db : DB) (id : Nat) (store2 : List StoredNotification)
      (evts : List BroadcastEvent) :
      deleteById db.store id = .ok (store2, evts) →
      Step db ⟨store2, db.nextId⟩
  | clearRes (db : DB) :
      Step db ⟨(clearResolved db.store).1, db.nextId⟩
  | sweep (db : DB) (hash note : String) (now : Int) :
      Step db ⟨(resolveByHashSweep db.store hash note now).1, db.nextId⟩

/-- A store state reachable from the empty collection. -/
def Reachable (db : DB) : Prop :=
  Relation.ReflTransGen Step ⟨[], 0⟩ db

/-! ### Concrete fixtures for witnesses and counterexamples -/

/-- A fully specified candidate (every tracked field supplied, resolved
flag false): the double-upsert on it is created-then-unchanged. -/
def candFull : NotificationData :=
  { type := some "GST Alert", title := some "T", message := some "M",
    taxId := some "T1", notificationHash := some "h1",
    isRead := some false, isResolved := some false,
    priority := some "high", color := some "red" }

/-- The same candidate with `isRead` left undefined: the stored default
`false` then compares `!==` against `undefined` on the second call. -/
def candNoRead : NotificationData :=
  { type := some "GST Alert", title := some "T", message := some "M",
    taxId := some "T1", notificationHash := some "h1",
    isResolved := some false, priority := some "high", color := some "red" }

/-- A resolved record inside the 30-day window carrying hash "h1". -/
def resolvedStored : StoredNotification :=
  { id := 7, type := "GST Alert", title := "T", message := "M",
    isResolved := true, isRead := true, timestamp := 50,
    notificationHash := some "h1", priority := "high", color := "red",
    taxId := some "T1" }

/-- An unresolved stock record created at time 1000 with hash "h2". -/
def stockStored : StoredNotification :=
  { id := 1, type := "Low Stock", title := "Low Stock Warning", message := "m",
    productId := some "P1", currentStock := some 4, minStock := some 5,
    timestamp := 1000, lastUpdated := 1000, createdAt := 1000,
    notificationHash := some "h2", priority := "medium", color := "orange" }

/-- A candidate for the same logical alert with a changed stock count
and no `preserveTimestamp` flag. -/
def candStockChanged : NotificationData :=
  { type := some "Low Stock", title := some "Low Stock Warning",
    message := some "m", productId := some "P1", currentStock := some 3,
    minStock := some 5, notificationHash := some "h2",
    priority := some "medium", color := some "orange",
    isRead := some false, isResolved := some false }

/-- A record carrying hash "h6" whose `timestamp` lies outside the
30-day window relative to `now = 0`. -/
def staleStored : StoredNotification :=
  { id := 3, type := "GST Alert", title := "t", message := "m",
    timestamp := -2592000001, notificationHash := some "h6" }

/-- A valid candidate carrying the same hash "h6". -/
def candStale : NotificationData :=
  { type := some "GST Alert", title := some "t2", message := some "m2",
    notificationHash := some "h6" }

theorem find?_append_none {α : Type} (p : α → Bool) (l1 l2 : List α)
    (h : l1.find? p = none) : (l1 ++ l2).find? p = l2.find? p := by
  induction l1 with
  | nil => simp
  | cons x xs ih =>
    rw [List.find?_cons] at h
    cases hp : p x with
    | true => rw [hp] at h; exact absurd h (by simp)
    | false =>
      rw [hp] at h
      rw [List.cons_append, List.find?_cons, hp]
      exact ih h

theorem mem_insertKeyDesc {key : StoredNotification → Int}
    {x a : StoredNotification} {l : List StoredNotification}
    (h : x ∈ insertKeyDesc key a l) : x = a ∨ x ∈ l := by
  induction l with
  | nil => simpa [insertKeyDesc] using h
  | cons y ys ih =>
    by_cases hk : key y < key a
    · simp only [insertKeyDesc, if_pos hk, List.mem_cons] at h
      rcases h with h | h | h
      · exact Or.inl h
      · exact Or.inr (by simp [h])
      · exact Or.inr (by simp [h])
    · simp only [insertKeyDesc, if_neg hk, List.mem_cons] at h
      rcases h with h | h
      · exact Or.inr (by simp [h])
      · rcases ih h with h1 | h1
        · exact Or.inl h1
        · exact Or.inr (by simp [h1])

theorem mem_sortKeyDesc {key : StoredNotification → Int}
    {x : StoredNotification} {l : List StoredNotification}
    (h : x ∈ sortKeyDesc key l) : x ∈ l := by
  induction l with
  | nil => simp [sortKeyDesc] at h
  | cons y ys ih =>
    have hrw : sortKeyDesc key (y :: ys) = insertKeyDesc key y (sortKeyDesc key ys) := rfl
    rw [hrw] at h
    rcases mem_insertKeyDesc h with h1 | h1
    · simp [h1]
    · exact List.mem_cons_of_mem _ (ih h1)

theorem mem_activeFeedQuery {store : List StoredNotification}
    {x : StoredNotification} (h : x ∈ activeFeedQuery store) :
    x ∈ store ∧ x.isResolved = false := by
  unfold activeFeedQuery at h
  have h1 := List.take_subset _ _ h
  have h2 := mem_sortKeyDesc h1
  refine ⟨List.mem_of_mem_filter h2, ?_⟩
  have h3 := List.of_mem_filter h2
  simpa using h3

theorem bytesHexChars_length (l : List Nat) :
    (bytesHexChars l).length = 2 * l.length := by
  induction l with
  | nil => simp [bytesHexChars]
  | cons b bs ih => simp [bytesHexChars, ih]; ring

theorem md5Bytes_length (msg : List Nat) : (md5Bytes msg).length = 16 := by
  simp [md5Bytes, word32LE]

theorem md5Hex_length (s : String) : (md5Hex s).length = 32 := by
  show (bytesHexChars (md5Bytes _)).length = 32
  rw [bytesHexChars_length, md5Bytes_length]

theorem generateNotificationHash_length (h : HashSource) :
    (generateNotificationHash h).length = 32 :=
  md5Hex_length _

/-! ### Claim C5 — the hash key deriver -/

/-- C5: the hash key deriver is a pure deterministic function of the
identity-relevant fields (type, productId, orderId, taxId,
invoiceNo/invoiceNumber, customerName/customer, billNumber, gstin; an
absent field falls back to the empty string inside `hashSourceString`):
two payloads agreeing on those fields hash identically whatever their
other fields hold, and the digest always has the fixed length 32.
Field-object ordering cannot affect the result since property access is
order-independent. -/
theorem hashDeriver_deterministic_fixed_length (c1 c2 : NotificationData)
    (ht : c1.type = c2.type) (hpid : c1.productId = c2.productId)
    (hor : c1.orderId = c2.orderId) (htax : c1.taxId = c2.taxId)
    (hin : c1.invoiceNo = c2.invoiceNo)
    (hinum : c1.invoiceNumber = c2.invoiceNumber)
    (hcn : c1.customerName = c2.customerName) (hcu : c1.customer = c2.customer)
    (hbn : c1.billNumber = c2.billNumber) (hg : c1.gstin = c2.gstin) :
    generateNotificationHash c1.hashSource = generateNotificationHash c2.hashSource ∧
    (generateNotificationHash c1.hashSource).length = 32 := by
  have hs : c1.hashSource = c2.hashSource := by
    simp [NotificationData.hashSource, ht, hpid, hor, htax, hin, hinum, hcn, hcu, hbn, hg]
  exact ⟨by rw [hs], generateNotificationHash_length _⟩

/-- Witness for C5 at two concrete payloads differing in incidental
fields (title, amount, customerPhone) but agreeing on identity fields. -/
theorem hashDeriver_deterministic_fixed_length_witness :
    generateNotificationHash
        (NotificationData.hashSource
          { type := some "GST Alert", taxId := some "T1",
            title := some "A", amount := some 5 }) =
      generateNotificationHash
        (NotificationData.hashSource
          { type := some "GST Alert", taxId := some "T1",
            title := some "B", customerPhone := some "123" }) ∧
    (generateNotificationHash
        (NotificationData.hashSource
          { type := some "GST Alert", taxId := some "T1",
            title := some "A", amount := some 5 })).length = 32 :=
  hashDeriver_deterministic_fixed_length
    { type := some "GST Alert", taxId := some "T1",
      title := some "A", amount := some 5 }
    { type := some "GST Alert", taxId := some "T1",
      title := some "B", customerPhone := some "123" }
    rfl rfl rfl rfl rfl rfl rfl rfl rfl rfl

/-! ### Claim C9 — resolution versus the active feed -/

/-- C9: resolving a notification by id sets `isResolved` on the stored
record without deleting it (the store keeps its length and still holds
the record), the active-feed query only ever returns records with
`isResolved = false`, and after the resolution no record with the
resolved id appears in the active-feed query over the new store. -/
theorem resolveById_hides_from_feed_keeps_storage
    (store : List StoredNotification) (id : Nat) (note : Option String)
    (now : Int) (r : StoredNotification)
    (hfind : store.find? (fun x => x.id == id) = some r) :
    resolveById store id note now = .ok (resolvedVersion r note now,
      store.map (fun x => if x.id = id then resolvedVersion r note now else x),
      [.resolvedEvt r.id r.notificationHash (jsOrStr note "Manually resolved")]) ∧
    (resolvedVersion r note now).isResolved = true ∧
    (store.map (fun x => if x.id = id then resolvedVersion r note now else x)).length
      = store.length ∧
    resolvedVersion r note now ∈
      store.map (fun x => if x.id = id then resolvedVersion r note now else x) ∧
    (∀ s : List StoredNotification, ∀ n ∈ activeFeedQuery s, n.isResolved = false) ∧
    (∀ n ∈ activeFeedQuery
        (store.map (fun x => if x.id = id then resolvedVersion r note now else x)),
      n.id ≠ id) := by
  have hrid : r.id = id := by
    have h1 := List.find?_some hfind
    simpa using h1
  have hrmem : r ∈ store := List.mem_of_find?_eq_some hfind
  refine ⟨?_, rfl, List.length_map _ _, ?_, ?_, ?_⟩
  · unfold resolveById
    rw [hfind]
  · refine List.mem_map.mpr ⟨r, hrmem, ?_⟩
    rw [if_pos hrid]
  · intro s n hn
    exact (mem_activeFeedQuery hn).2
  · intro n hn hid
    obtain ⟨hmem, hres⟩ := mem_activeFeedQuery hn
    obtain ⟨x, _, hx⟩ := List.mem_map.mp hmem
    by_cases hxid : x.id = id
    · rw [if_pos hxid] at hx
      rw [← hx] at hres
      simp [resolvedVersion] at hres
    · rw [if_neg hxid] at hx
      rw [← hx] at hid
      exact hxid hid

/-- Witness for C9: a concrete one-record store. -/
theorem resolveById_hides_from_feed_keeps_storage_witness :
    ([{ id := 5, type := "GST Alert", title := "t", message := "m",
        timestamp := 10 : StoredNotification }].find?
      (fun x => x.id == 5)) = some
        { id := 5, type := "GST Alert", title := "t", message := "m",
          timestamp := 10 : StoredNotification } ∧
    (resolvedVersion
      { id := 5, type := "GST Alert", title := "t", message := "m",
        timestamp := 10 : StoredNotification } (some "done") 99).isResolved = true :=
  ⟨by decide,
   (resolveById_hides_from_feed_keeps_storage
      [{ id := 5, type := "GST Alert", title := "t", message := "m",
         timestamp := 10 }] 5 (some "done") 99
      { id := 5, type := "GST Alert", title := "t", message := "m",
        timestamp := 10 } (by decide)).2.1⟩

/-! ### Claim C10 — the clear-resolved sweep -/

/-- C10: the clear-resolved bulk sweep deletes every record that is
resolved or merely read (`$or: [{isResolved: true}, {isRead: true}]`),
so afterwards no resolved or read record remains, and in particular an
unresolved notification that has only been marked read is deleted. -/
theorem clearResolved_deletes_read_records
    (store : List StoredNotification) (r : StoredNotification)
    (_hr : r ∈ store) (hread : r.isRead = true) :
    (clearResolved store).1 =
      store.filter (fun x => !(x.isResolved || x.isRead)) ∧
    (∀ n ∈ (clearResolved store).1, n.isResolved = false ∧ n.isRead = false) ∧
    r ∉ (clearResolved store).1 := by
  refine ⟨rfl, ?_, ?_⟩
  · intro n hn
    have hp := List.of_mem_filter hn
    simpa using hp
  · intro hmem
    have hp := List.of_mem_filter hmem
    simp [hread] at hp

/-- Witness for C10: a read-but-unresolved record is swept. -/
theorem clearResolved_deletes_read_records_witness :
    ({ id := 1, type := "System Alert", title := "t", message := "m",
       isRead := true : StoredNotification } ∈
      ([{ id := 1, type := "System Alert", title := "t", message := "m",
          isRead := true : StoredNotification }])) ∧
    ({ id := 1, type := "System Alert", title := "t", message := "m",
       isRead := true : StoredNotification } ∉
      (clearResolved
        [{ id := 1, type := "System Alert", title := "t", message := "m",
           isRead := true : StoredNotification }]).1) :=
  ⟨by decide,
   (clearResolved_deletes_read_records
      [{ id := 1, type := "System Alert", title := "t", message := "m",
         isRead := true }]
      { id := 1, type := "System Alert", title := "t", message := "m",
        isRead := true } (by decide) (by decide)).2.2⟩

/-! ### Claim C8 — per-generator failure isolation in the feed read -/

/-- C8: a failure of the GST generator's tax-entry scan leaves the feed
read exactly as if the GST generator had found nothing — the payment
generator still runs over the same order fetches and the caller still
receives the merged partial list, not an error — and symmetrically a
failure of the payment generator's order scan leaves the feed as if the
payment generator had found nothing, with the GST side untouched. -/
theorem feed_isolates_generator_failures
    (store : List StoredNotification) (nextId : Nat) (now : Int)
    (e1 e2 : String)
    (tf paidTaxFetch : Except String (List TaxEntry))
    (orderFetch paidOrderFetch : Except String (List OrderRec)) :
    getNotificationsFeed store nextId (.error e1) paidTaxFetch
        orderFetch paidOrderFetch now =
      getNotificationsFeed store nextId (.ok []) (.ok [])
        orderFetch paidOrderFetch now ∧
    getNotificationsFeed store nextId tf paidTaxFetch
        (.error e2) paidOrderFetch now =
      getNotificationsFeed store nextId tf paidTaxFetch
        (.ok []) (.ok []) now := by
  constructor
  · rfl
  · have hp1 : ∀ (s : List StoredNotification) (i : Nat),
        generatePaymentAlerts s i (.error e2) paidOrderFetch now = ([], s, i, []) :=
      fun s i => rfl
    have hp2 : ∀ (s : List StoredNotification) (i : Nat),
        generatePaymentAlerts s i (.ok []) (.ok []) now = ([], s, i, []) :=
      fun s i => rfl
    rcases hg : generateGSTAlerts store nextId tf paidTaxFetch now with
      ⟨ga, s1, i1, ev1⟩
    simp only [getNotificationsFeed, hg, hp1, hp2]

/-! ### Claim C6 — duplicate-key recovery -/

/-- C6: when the windowed dedup lookup misses but the insert would hit
the unique hash index (a record with the hash exists, e.g. one older
than the retention window), the engine re-reads the record with that
hash and resolves with action "recovered" — the store is untouched, no
broadcast is emitted, and no error reaches the caller.  Moreover no
upsert at all can resolve to the rethrown duplicate-key error: the
recovery re-read always finds the conflicting record. -/
theorem upsert_recovers_duplicate_key
    (store : List StoredNotification) (nextId : Nat) (nd : NotificationData)
    (now : Int) (rC : StoredNotification)
    (hnone : store.find? (dedupFilter (upsertLookupHash nd) now) = none)
    (hvalid : validCreate nd = true)
    (hfound : store.find? (hashOnlyFilter (upsertLookupHash nd)) = some rC) :
    upsertNotification store nextId nd now =
      .ok ({ notification := rC, isNew := false, updated := false,
             action := "recovered" }, store, nextId, []) ∧
    ∀ (s2 : List StoredNotification) (n2 : Nat) (d2 : NotificationData) (t2 : Int),
      upsertNotification s2 n2 d2 t2 ≠ .error "E11000 duplicate key" := by
  constructor
  · simp only [upsertNotification, hnone, hvalid, hfound, if_true]
  · intro s2 n2 d2 t2 heq
    simp only [upsertNotification] at heq
    split at heq
    · split at heq
      · split at heq
        · split at heq
          · split at heq
            · exact absurd heq (by simp)
            · rename_i hcond _ hnone2
              obtain ⟨_, rr, hrrmem, _, hrrhash⟩ := hcond
              have hall := List.find?_eq_none.mp hnone2 rr hrrmem
              simp [hrrhash] at hall
          · exact absurd heq (by simp)
        · simp at heq
      · exact absurd heq (by simp)
    · split at heq
      · split at heq
        · exact absurd heq (by simp)
        · exact absurd heq (by simp)
      · simp at heq

/-- Witness for C6: the stale-record scenario at `now = 0`. -/
theorem upsert_recovers_duplicate_key_witness :
    upsertNotification [staleStored] 9 candStale 0 =
      .ok ({ notification := staleStored, isNew := false, updated := false,
             action := "recovered" }, [staleStored], 9, []) :=
  (upsert_recovers_duplicate_key [staleStored] 9 candStale 0 staleStored
    (by decide) (by decide) (by decide)).1

/-- Shared helper: against a store holding no record with the
candidate's hash, a validating upsert takes the creation branch. -/
theorem upsert_free_creates
    (store : List StoredNotification) (nextId : Nat) (nd : NotificationData)
    (now : Int)
    (hfree : ∀ r ∈ store, r.notificationHash ≠ some (upsertLookupHash nd))
    (hvalid : validCreate nd = true) :
    upsertNotification store nextId nd now =
      .ok ({ notification := mkCreated nd (upsertLookupHash nd) now nextId,
             isNew := true, updated := false, action := "created" },
           store ++ [mkCreated nd (upsertLookupHash nd) now nextId], nextId + 1,
           [.createdEvt (mkCreated nd (upsertLookupHash nd) now nextId)]) := by
  have hnone1 : store.find? (dedupFilter (upsertLookupHash nd) now) = none := by
    refine List.find?_eq_none.mpr (fun x hx => ?_)
    simp only [dedupFilter, Bool.and_eq_true, beq_iff_eq, decide_eq_true_eq]
    exact fun hc => hfree x hx hc.1
  have hnone2 : store.find? (hashOnlyFilter (upsertLookupHash nd)) = none := by
    refine List.find?_eq_none.mpr (fun x hx => ?_)
    simp only [hashOnlyFilter, beq_iff_eq]
    exact hfree x hx
  simp only [upsertNotification, hnone1, hnone2, hvalid, if_true]

/-! ### Claim C3 — double upsert: created then unchanged -/

/-- C3 (amended): against a store free of the candidate's hash, a
candidate that supplies all the tracked fields the creation path would
otherwise default or force — an explicit `isRead`, `priority` and
`color`, and `isResolved = false` — yields "created" with exactly one
broadcast, and an immediately repeated byte-identical upsert yields
"unchanged" with no store write and no broadcast, so one broadcast is
emitted in total.  (Without those suppliedness conditions the second
call compares a stored default against `undefined` and reports
"updated" instead — see the counterexample.) -/
theorem upsert_twice_created_then_unchanged
    (store : List StoredNotification) (nextId : Nat) (nd : NotificationData)
    (now : Int)
    (hfree : ∀ r ∈ store, r.notificationHash ≠ some (upsertLookupHash nd))
    (hvalid : validCreate nd = true)
    (hread : nd.isRead.isSome) (hprio : nd.priority.isSome)
    (hcolor : nd.color.isSome) (hres : nd.isResolved = some false) :
    upsertNotification store nextId nd now =
      .ok ({ notification := mkCreated nd (upsertLookupHash nd) now nextId,
             isNew := true, updated := false, action := "created" },
           store ++ [mkCreated nd (upsertLookupHash nd) now nextId], nextId + 1,
           [.createdEvt (mkCreated nd (upsertLookupHash nd) now nextId)]) ∧
    upsertNotification (store ++ [mkCreated nd (upsertLookupHash nd) now nextId])
        (nextId + 1) nd now =
      .ok ({ notification := mkCreated nd (upsertLookupHash nd) now nextId,
             isNew := false, updated := false, action := "unchanged" },
           store ++ [mkCreated nd (upsertLookupHash nd) now nextId],
           nextId + 1, []) := by
  have hnone1 : store.find? (dedupFilter (upsertLookupHash nd) now) = none := by
    refine List.find?_eq_none.mpr (fun x hx => ?_)
    simp only [dedupFilter, Bool.and_eq_true, beq_iff_eq, decide_eq_true_eq]
    exact fun hc => hfree x hx hc.1
  have hnone2 : store.find? (hashOnlyFilter (upsertLookupHash nd)) = none := by
    refine List.find?_eq_none.mpr (fun x hx => ?_)
    simp only [hashOnlyFilter, beq_iff_eq]
    exact hfree x hx
  have hty : ∃ t, nd.type = some t := by
    cases h : nd.type with
    | none => simp [validCreate, h] at hvalid
    | some t => exact ⟨t, rfl⟩
  have hti : ∃ t, nd.title = some t := by
    cases h : nd.title with
    | none => simp [validCreate, h] at hvalid
    | some t => exact ⟨t, rfl⟩
  have hme : ∃ t, nd.message = some t := by
    cases h : nd.message with
    | none => simp [validCreate, h] at hvalid
    | some t => exact ⟨t, rfl⟩
  obtain ⟨t, ht⟩ := hty
  obtain ⟨ti, hti'⟩ := hti
  obtain ⟨me, hme'⟩ := hme
  obtain ⟨rb, hrb⟩ := Option.isSome_iff_exists.mp hread
  obtain ⟨pr, hpr⟩ := Option.isSome_iff_exists.mp hprio
  obtain ⟨co, hco⟩ := Option.isSome_iff_exists.mp hcolor
  refine ⟨upsert_free_creates store nextId nd now hfree hvalid, ?_⟩
  have hpnew : dedupFilter (upsertLookupHash nd) now
      (mkCreated nd (upsertLookupHash nd) now nextId) = true := by
    simp [dedupFilter, mkCreated, thirtyDaysMs]
  have hfind2 : (store ++ [mkCreated nd (upsertLookupHash nd) now nextId]).find?
      (dedupFilter (upsertLookupHash nd) now) =
      some (mkCreated nd (upsertLookupHash nd) now nextId) := by
    rw [find?_append_none _ _ _ hnone1, List.find?_cons, hpnew]
  have hnoch : hasChanges (mkCreated nd (upsertLookupHash nd) now nextId) nd
      = false := by
    simp [hasChanges, mkCreated, ht, hti', hme', hrb, hpr, hco, hres]
  simp only [upsertNotification, hfind2, hnoch, Bool.false_eq_true,
    if_false]

/-- Witness for C3 at `candFull` against the empty store. -/
theorem upsert_twice_created_then_unchanged_witness :
    upsertNotification [] 0 candFull 0 =
      .ok ({ notification := mkCreated candFull (upsertLookupHash candFull) 0 0,
             isNew := true, updated := false, action := "created" },
           [] ++ [mkCreated candFull (upsertLookupHash candFull) 0 0], 0 + 1,
           [.createdEvt (mkCreated candFull (upsertLookupHash candFull) 0 0)]) ∧
    upsertNotification ([] ++ [mkCreated candFull (upsertLookupHash candFull) 0 0])
        (0 + 1) candFull 0 =
      .ok ({ notification := mkCreated candFull (upsertLookupHash candFull) 0 0,
             isNew := false, updated := false, action := "unchanged" },
           [] ++ [mkCreated candFull (upsertLookupHash candFull) 0 0],
           0 + 1, []) :=
  upsert_twice_created_then_unchanged [] 0 candFull 0 (by simp) (by decide)
    (by decide) (by decide) (by decide) (by decide)

/-- Counterexample for C3 as frozen: the byte-identical candidate
`candNoRead` (its `isRead` left undefined, as the stock alert payloads
leave it) yields "created" then "updated" — the second call writes and
broadcasts again, so two events are emitted in total, not one. -/
theorem upsert_twice_counterexample :
    upsertAction [] 0 candNoRead 0 = "created" ∧
    upsertAction (upsertStoreAfter [] 0 candNoRead 0) 1 candNoRead 0 = "updated" ∧
    (upsertEventsAfter (upsertStoreAfter [] 0 candNoRead 0) 1 candNoRead 0).length
      = 1 := by decide

/-- Shared helper: when the dedup lookup finds `r` and a tracked field
differs, a validating payload whose `notificationHash` is not the empty
string takes the in-place-update branch. -/
theorem upsert_found_changed_updates
    (store : List StoredNotification) (nextId : Nat) (nd : NotificationData)
    (now : Int) (r : StoredNotification)
    (hfind : store.find? (dedupFilter (upsertLookupHash nd) now) = some r)
    (hch : hasChanges r nd = true)
    (hvalid : validUpdate nd = true)
    (hn0 : nd.notificationHash ≠ some "") :
    upsertNotification store nextId nd now =
      .ok ({ notification := applyUpdate r nd now, isNew := false,
             updated := true, action := "updated" },
           store.map (fun x => if x.id = r.id then applyUpdate r nd now else x),
           nextId, [.updatedEvt (applyUpdate r nd now)]) := by
  have hrhash : r.notificationHash = some (upsertLookupHash nd) := by
    have h1 := List.find?_some hfind
    simp only [dedupFilter, Bool.and_eq_true, beq_iff_eq] at h1
    exact h1.1
  have hsame : (applyUpdate r nd now).notificationHash = r.notificationHash := by
    show (match nd.notificationHash with
      | some v => some v
      | none => r.notificationHash) = r.notificationHash
    cases h : nd.notificationHash with
    | none => rfl
    | some v =>
      have hv : v ≠ "" := fun hv0 => hn0 (by rw [h, hv0])
      rw [hrhash]
      simp [upsertLookupHash, jsOrStr, h, hv]
  simp only [upsertNotification, hfind, hch, hvalid, if_true]
  rw [if_neg (fun hc => hc.1 hsame)]

/-! ### Claim C4 — update semantics for a changed tracked field -/

/-- C4 (amended): when the dedup lookup finds a match and a tracked
field differs, the result is "updated" with the update applied in
place; `lastUpdated` is refreshed to now and mongoose's `createdAt` is
untouched, but the `timestamp` field — the creation time the dedup
window is measured against — is RESET to now by default and kept only
when the caller explicitly passes `preserveTimestamp: true` (the
opt-in runs in the opposite direction from the frozen claim). -/
theorem upsert_update_refreshes_and_resets_timestamp
    (store : List StoredNotification) (nextId : Nat) (nd : NotificationData)
    (now : Int) (r : StoredNotification)
    (hfind : store.find? (dedupFilter (upsertLookupHash nd) now) = some r)
    (hch : hasChanges r nd = true)
    (hvalid : validUpdate nd = true)
    (hn0 : nd.notificationHash ≠ some "") :
    upsertNotification store nextId nd now =
      .ok ({ notification := applyUpdate r nd now, isNew := false,
             updated := true, action := "updated" },
           store.map (fun x => if x.id = r.id then applyUpdate r nd now else x),
           nextId, [.updatedEvt (applyUpdate r nd now)]) ∧
    (applyUpdate r nd now).lastUpdated = now ∧
    (applyUpdate r nd now).createdAt = r.createdAt ∧
    (applyUpdate r nd now).timestamp =
      (if nd.preserveTimestamp = some true then r.timestamp else now) :=
  ⟨upsert_found_changed_updates store nextId nd now r hfind hch hvalid hn0,
   rfl, rfl, rfl⟩

/-- Witness for C4: the changed-stock scenario at `now = 5000`. -/
theorem upsert_update_refreshes_and_resets_timestamp_witness :
    upsertNotification [stockStored] 2 candStockChanged 5000 =
      .ok ({ notification := applyUpdate stockStored candStockChanged 5000,
             isNew := false, updated := true, action := "updated" },
           [stockStored].map (fun x =>
             if x.id = stockStored.id
             then applyUpdate stockStored candStockChanged 5000 else x),
           2, [.updatedEvt (applyUpdate stockStored candStockChanged 5000)]) ∧
    (applyUpdate stockStored candStockChanged 5000).lastUpdated = 5000 ∧
    (applyUpdate stockStored candStockChanged 5000).createdAt
      = stockStored.createdAt ∧
    (applyUpdate stockStored candStockChanged 5000).timestamp =
      (if candStockChanged.preserveTimestamp = some true
       then stockStored.timestamp else 5000) :=
  upsert_update_refreshes_and_resets_timestamp [stockStored] 2
    candStockChanged 5000 stockStored (by decide) (by decide) (by decide)
    (by decide)

/-- Counterexample for C4 as frozen: with a changed `currentStock` and a
caller that did NOT opt into any timestamp reset
(`preserveTimestamp` absent), the record's creation `timestamp` is not
preserved — it jumps from 1000 to the update time 5000. -/
theorem upsert_update_timestamp_counterexample :
    upsertAction [stockStored] 2 candStockChanged 5000 = "updated" ∧
    (upsertRecAfter [stockStored] 2 candStockChanged 5000).timestamp = 5000 ∧
    stockStored.timestamp = 1000 ∧
    candStockChanged.preserveTimestamp = none := by decide

/-! ### Claim C1 — what the dedup lookup matches -/

/-- C1 (amended): the dedup lookup filters only on the hash and the
30-day `timestamp` window — it does NOT restrict to unresolved records.
When the only in-window record with the candidate's hash is resolved,
the upsert finds it: with the generators' `isResolved: false` payloads
the resolved-flag comparison makes `hasChanges` true, so the engine
returns "updated", reviving the resolved record in place (it becomes
unresolved again); no new record is created and the store length is
unchanged. -/
theorem dedup_lookup_matches_resolved
    (store : List StoredNotification) (nextId : Nat) (nd : NotificationData)
    (now : Int) (r : StoredNotification)
    (hfind : store.find? (dedupFilter (upsertLookupHash nd) now) = some r)
    (hres : r.isResolved = true)
    (hcand : nd.isResolved = some false)
    (hvalid : validUpdate nd = true)
    (hn0 : nd.notificationHash ≠ some "") :
    upsertNotification store nextId nd now =
      .ok ({ notification := applyUpdate r nd now, isNew := false,
             updated := true, action := "updated" },
           store.map (fun x => if x.id = r.id then applyUpdate r nd now else x),
           nextId, [.updatedEvt (applyUpdate r nd now)]) ∧
    (applyUpdate r nd now).isResolved = false ∧
    (store.map (fun x => if x.id = r.id then applyUpdate r nd now else x)).length
      = store.length := by
  have hch : hasChanges r nd = true := by
    simp [hasChanges, hres, hcand]
  refine ⟨upsert_found_changed_updates store nextId nd now r hfind hch hvalid hn0,
    ?_, List.length_map _ _⟩
  show nd.isResolved.getD r.isResolved = false
  rw [hcand]
  rfl

/-- Witness for C1 (amended) at the concrete resolved record. -/
theorem dedup_lookup_matches_resolved_witness :
    upsertNotification [resolvedStored] 8 candFull 100 =
      .ok ({ notification := applyUpdate resolvedStored candFull 100,
             isNew := false, updated := true, action := "updated" },
           [resolvedStored].map (fun x =>
             if x.id = resolvedStored.id
             then applyUpdate resolvedStored candFull 100 else x),
           8, [.updatedEvt (applyUpdate resolvedStored candFull 100)]) ∧
    (applyUpdate resolvedStored candFull 100).isResolved = false ∧
    ([resolvedStored].map (fun x =>
        if x.id = resolvedStored.id
        then applyUpdate resolvedStored candFull 100 else x)).length = 1 :=
  dedup_lookup_matches_resolved [resolvedStored] 8 candFull 100 resolvedStored
    (by decide) (by decide) (by decide) (by decide) (by decide)

/-- Counterexample for C1 as frozen: the only stored record with the
candidate's hash is resolved and inside the window, yet the upsert does
not create a new unresolved record — it reports "updated" and the store
still holds a single record. -/
theorem dedup_lookup_counterexample :
    upsertAction [resolvedStored] 8 candFull 100 = "updated" ∧
    (upsertStoreAfter [resolvedStored] 8 candFull 100).length = 1 := by decide

/-! ### Claim C7 — stock-check lifecycle: create on zero, delete on recovery -/

/-- C7: a stock check with `currentStock = 0` against a store free of
the product's out-of-stock hash upserts (creates) a notification of
type "Out of Stock" with priority "high"; a later stock check for the
same product with `currentStock` strictly above `minStock` answers
`alerts_deleted` and removes every stock notification of that product
from the store outright — the surviving store is a sublist of the
previous one (no record was mutated into a resolved state). -/
theorem stock_check_creates_then_deletes
    (store : List StoredNotification) (nextId : Nat)
    (pid pname : Option String) (ms cs2 : Int) (now now2 : Int)
    (hfree : ∀ r ∈ store, r.notificationHash ≠
      some (upsertLookupHash (outOfStockData pid pname 0 ms)))
    (hne : cs2 ≠ 0) (hgt : ms < cs2) :
    checkStock store nextId pid pname (some 0) (some ms) now =
      .ok (.alertResult "alert_created" "created"
            (mkCreated (outOfStockData pid pname 0 ms)
              (upsertLookupHash (outOfStockData pid pname 0 ms)) now nextId),
           store ++ [mkCreated (outOfStockData pid pname 0 ms)
             (upsertLookupHash (outOfStockData pid pname 0 ms)) now nextId],
           nextId + 1,
           [.createdEvt (mkCreated (outOfStockData pid pname 0 ms)
             (upsertLookupHash (outOfStockData pid pname 0 ms)) now nextId)]) ∧
    (mkCreated (outOfStockData pid pname 0 ms)
      (upsertLookupHash (outOfStockData pid pname 0 ms)) now nextId).type
      = "Out of Stock" ∧
    (mkCreated (outOfStockData pid pname 0 ms)
      (upsertLookupHash (outOfStockData pid pname 0 ms)) now nextId).priority
      = "high" ∧
    (∃ k store3 evts,
      checkStock (store ++ [mkCreated (outOfStockData pid pname 0 ms)
          (upsertLookupHash (outOfStockData pid pname 0 ms)) now nextId])
          (nextId + 1) pid pname (some cs2) (some ms) now2 =
        .ok (.alertsDeleted k, store3, nextId + 1, evts) ∧
      0 < k ∧
      (∀ x ∈ store3, ¬(x.productId = pid ∧ x.type ∈ stockTypes)) ∧
      store3 ⊆ store ++ [mkCreated (outOfStockData pid pname 0 ms)
        (upsertLookupHash (outOfStockData pid pname 0 ms)) now nextId]) := by
  have hmsg : jsShow pname ++ " is completely out of stock" ≠ "" := by
    intro heq
    have hlen := congrArg String.length heq
    rw [String.length_append] at hlen
    have h27 : (" is completely out of stock").length = 27 := by decide
    have h0 : ("" : String).length = 0 := by decide
    omega
  have hvc : validCreate (outOfStockData pid pname 0 ms) = true := by
    simp only [validCreate, outOfStockData, typeEnum, priorityEnum, colorEnum]
    simp [hmsg]
  have hcreate := upsert_free_creates store nextId (outOfStockData pid pname 0 ms)
    now hfree hvc
  refine ⟨?_, rfl, rfl, ?_⟩
  · simp [checkStock, hcreate]
  · have hmemn : mkCreated (outOfStockData pid pname 0 ms)
        (upsertLookupHash (outOfStockData pid pname 0 ms)) now nextId ∈
        store ++ [mkCreated (outOfStockData pid pname 0 ms)
          (upsertLookupHash (outOfStockData pid pname 0 ms)) now nextId] := by
      simp
    have hpredn : (fun r => r.productId == pid && stockTypes.contains r.type &&
        !r.isResolved) (mkCreated (outOfStockData pid pname 0 ms)
          (upsertLookupHash (outOfStockData pid pname 0 ms)) now nextId)
        = true := by
      simp [mkCreated, outOfStockData, stockTypes]
    have hne2 : ((store ++ [mkCreated (outOfStockData pid pname 0 ms)
        (upsertLookupHash (outOfStockData pid pname 0 ms)) now nextId]).filter
        (fun r => r.productId == pid && stockTypes.contains r.type &&
          !r.isResolved)) ≠ [] :=
      List.ne_nil_of_mem (List.mem_filter.mpr ⟨hmemn, hpredn⟩)
    have hisEmpty : ((store ++ [mkCreated (outOfStockData pid pname 0 ms)
        (upsertLookupHash (outOfStockData pid pname 0 ms)) now nextId]).filter
        (fun r => r.productId == pid && stockTypes.contains r.type &&
          !r.isResolved)).isEmpty = false := by
      rw [List.isEmpty_eq_false]
      exact hne2
    refine ⟨((store ++ [mkCreated (outOfStockData pid pname 0 ms)
        (upsertLookupHash (outOfStockData pid pname 0 ms)) now nextId]).filter
        (fun r => r.productId == pid && stockTypes.contains r.type)).length,
      (store ++ [mkCreated (outOfStockData pid pname 0 ms)
        (upsertLookupHash (outOfStockData pid pname 0 ms)) now nextId]).filter
        (fun r => !(r.productId == pid && stockTypes.contains r.type)),
      ((store ++ [mkCreated (outOfStockData pid pname 0 ms)
        (upsertLookupHash (outOfStockData pid pname 0 ms)) now nextId]).filter
        (fun r => r.productId == pid && stockTypes.contains r.type &&
          !r.isResolved)).map (fun n => BroadcastEvent.deletedEvt n.id) ++
        [BroadcastEvent.stockUpdatedEvt pid],
      ?_, ?_, ?_, fun y hy => List.mem_of_mem_filter hy⟩
    · simp only [checkStock]
      rw [if_neg hne, if_neg (fun hc => absurd hc.2 (not_le.mpr hgt)), hisEmpty]
      simp
    · have hpred2 : (fun r => r.productId == pid && stockTypes.contains r.type)
          (mkCreated (outOfStockData pid pname 0 ms)
            (upsertLookupHash (outOfStockData pid pname 0 ms)) now nextId)
          = true := by
        simp [mkCreated, outOfStockData, stockTypes]
      exact List.length_pos.mpr
        (List.ne_nil_of_mem (List.mem_filter.mpr ⟨hmemn, hpred2⟩))
    · intro x hx hcontra
      have hp := List.of_mem_filter hx
      have hc1 : (x.productId == pid) = true := beq_iff_eq.mpr hcontra.1
      have hc2 : stockTypes.contains x.type = true := by
        have hmem : x.type = "Low Stock" ∨ x.type = "Out of Stock" := by
          simpa [stockTypes] using hcontra.2
        rcases hmem with h | h <;> simp [stockTypes, h]
      rw [hc1, hc2] at hp
      simp at hp

/-- Witness for C7: product "P9" with minStock 10, checked at 0 and
then at 50. -/
theorem stock_check_creates_then_deletes_witness :
    checkStock [] 0 (some "P9") (some "Widget") (some 0) (some 10) 100 =
      .ok (.alertResult "alert_created" "created"
            (mkCreated (outOfStockData (some "P9") (some "Widget") 0 10)
              (upsertLookupHash (outOfStockData (some "P9") (some "Widget") 0 10))
              100 0),
           [] ++ [mkCreated (outOfStockData (some "P9") (some "Widget") 0 10)
             (upsertLookupHash (outOfStockData (some "P9") (some "Widget") 0 10))
             100 0],
           0 + 1,
           [.createdEvt (mkCreated (outOfStockData (some "P9") (some "Widget") 0 10)
             (upsertLookupHash (outOfStockData (some "P9") (some "Widget") 0 10))
             100 0)]) ∧
    (mkCreated (outOfStockData (some "P9") (some "Widget") 0 10)
      (upsertLookupHash (outOfStockData (some "P9") (some "Widget") 0 10))
      100 0).priority = "high" :=
  ⟨(stock_check_creates_then_deletes [] 0 (some "P9") (some "Widget") 10 50
      100 200 (by simp) (by decide) (by decide)).1,
   (stock_check_creates_then_deletes [] 0 (some "P9") (some "Widget") 10 50
      100 200 (by simp) (by decide) (by decide)).2.2.1⟩

/-! ### Well-formedness preservation -/

theorem storeWF_empty : StoreWF ⟨[], 0⟩ := by
  refine ⟨?_, ?_, ?_⟩ <;> simp [StoreWF]

/-- Elements of a well-formed store with equal ids are equal. -/
theorem storeWF_id_inj {store : List StoredNotification} {nextId : Nat}
    (hwf : StoreWF ⟨store, nextId⟩) {r1 r2 : StoredNotification}
    (h1 : r1 ∈ store) (h2 : r2 ∈ store) (hid : r1.id = r2.id) : r1 = r2 :=
  List.inj_on_of_nodup_map hwf.2.1 h1 h2 hid

/-- A pointwise map that keeps each record's id and hash preserves
well-formedness. -/
theorem storeWF_map (store : List StoredNotification) (nextId : Nat)
    (hwf : StoreWF ⟨store, nextId⟩) (g : StoredNotification → StoredNotification)
    (hid : ∀ r, (g r).id = r.id)
    (hhash : ∀ r, (g r).notificationHash = r.notificationHash) :
    StoreWF ⟨store.map g, nextId⟩ := by
  refine ⟨?_, ?_, ?_⟩
  · intro r hr
    obtain ⟨x, hx, hgx⟩ := List.mem_map.mp hr
    rw [← hgx, hid]
    exact hwf.1 x hx
  · rw [List.map_map]
    have : (fun r => r.id) ∘ g = fun r => r.id := funext (fun r => hid r)
    rw [this]
    exact hwf.2.1
  · intro r1 h1 r2 h2 h hh1 hh2
    obtain ⟨x1, hx1, hgx1⟩ := List.mem_map.mp h1
    obtain ⟨x2, hx2, hgx2⟩ := List.mem_map.mp h2
    rw [← hgx1] at hh1 ⊢
    rw [← hgx2] at hh2 ⊢
    rw [hhash x1] at hh1
    rw [hhash x2] at hh2
    rw [hwf.2.2 x1 hx1 x2 hx2 h hh1 hh2]

/-- Removing records (a `filter`) preserves well-formedness. -/
theorem storeWF_filter (store : List StoredNotification) (nextId : Nat)
    (hwf : StoreWF ⟨store, nextId⟩) (p : StoredNotification → Bool) :
    StoreWF ⟨store.filter p, nextId⟩ := by
  refine ⟨?_, ?_, ?_⟩
  · intro r hr
    exact hwf.1 r (List.mem_of_mem_filter hr)
  · exact List.Nodup.sublist (List.Sublist.map _ (List.filter_sublist store)) hwf.2.1
  · intro r1 h1 r2 h2 h hh1 hh2
    exact hwf.2.2 r1 (List.mem_of_mem_filter h1) r2 (List.mem_of_mem_filter h2)
      h hh1 hh2

/-- Updating one record in place (keyed by id) preserves
well-formedness provided the update keeps the id and either keeps the
hash or moves it to a value no other record holds. -/
theorem storeWF_update (store : List StoredNotification) (nextId : Nat)
    (hwf : StoreWF ⟨store, nextId⟩) (target upd : StoredNotification)
    (hmem : target ∈ store) (hid : upd.id = target.id)
    (hhash : upd.notificationHash = target.notificationHash ∨
      ∀ r ∈ store, r.id ≠ target.id → r.notificationHash ≠ upd.notificationHash) :
    StoreWF ⟨store.map (fun r => if r.id = target.id then upd else r), nextId⟩ := by
  have hgid : ∀ r : StoredNotification,
      ((fun r => if r.id = target.id then upd else r) r).id = r.id := by
    intro r
    by_cases hc : r.id = target.id
    · simp [hc, hid]
    · simp [hc]
  refine ⟨?_, ?_, ?_⟩
  · intro r hr
    obtain ⟨x, hx, hgx⟩ := List.mem_map.mp hr
    rw [← hgx, hgid]
    exact hwf.1 x hx
  · rw [List.map_map]
    have : (fun r => r.id) ∘ (fun r => if r.id = target.id then upd else r) =
        fun r => r.id := funext (fun r => hgid r)
    rw [this]
    exact hwf.2.1
  · intro r1 h1 r2 h2 h hh1 hh2
    obtain ⟨x1, hx1, hgx1⟩ := List.mem_map.mp h1
    obtain ⟨x2, hx2, hgx2⟩ := List.mem_map.mp h2
    -- reduce to: the images agree
    have key : ∀ x ∈ store,
        (if x.id = target.id then upd else x).notificationHash = some h →
        (x.id = target.id ∧ upd.notificationHash = some h) ∨
        (x.id ≠ target.id ∧ x.notificationHash = some h) := by
      intro x hx hxh
      by_cases hc : x.id = target.id
      · rw [if_pos hc] at hxh
        exact Or.inl ⟨hc, hxh⟩
      · rw [if_neg hc] at hxh
        exact Or.inr ⟨hc, hxh⟩
    have k1 := key x1 hx1 (by rw [hgx1]; exact hh1)
    have k2 := key x2 hx2 (by rw [hgx2]; exact hh2)
    -- targets with the same hash as upd collapse to upd; others are unique
    have hsame : ∀ x ∈ store, x.id ≠ target.id → x.notificationHash = some h →
        upd.notificationHash = some h → False := by
      intro x hx hxne hxh huh
      rcases hhash with hh | hh
      · have hth : target.notificationHash = some h := by rw [← hh]; exact huh
        have := hwf.2.2 x hx target hmem h hxh hth
        exact hxne (by rw [this])
      · exact hh x hx hxne (by rw [huh, hxh])
    rcases k1 with ⟨hc1, hu1⟩ | ⟨hc1, hx1h⟩
    · rcases k2 with ⟨hc2, _⟩ | ⟨hc2, hx2h⟩
      · rw [← hgx1, ← hgx2, if_pos hc1, if_pos hc2]
      · exact absurd (hsame x2 hx2 hc2 hx2h hu1) (fun f => f)
    · rcases k2 with ⟨hc2, hu2⟩ | ⟨hc2, hx2h⟩
      · exact absurd (hsame x1 hx1 hc1 hx1h hu2) (fun f => f)
      · have hx12 : x1 = x2 := hwf.2.2 x1 hx1 x2 hx2 h hx1h hx2h
        rw [← hgx1, ← hgx2, hx12]

/-- Appending a fresh record whose hash no existing record holds
preserves well-formedness (with the id counter bumped). -/
theorem storeWF_append (store : List StoredNotification) (nextId : Nat)
    (hwf : StoreWF ⟨store, nextId⟩) (newRec : StoredNotification)
    (hid : newRec.id = nextId)
    (hhash : ∀ r ∈ store, r.notificationHash ≠ newRec.notificationHash) :
    StoreWF ⟨store ++ [newRec], nextId + 1⟩ := by
  refine ⟨?_, ?_, ?_⟩
  · intro r hr
    rcases List.mem_append.mp hr with hr | hr
    · exact Nat.lt_trans (hwf.1 r hr) (Nat.lt_succ_self _)
    · rw [List.mem_singleton.mp hr, hid]
      exact Nat.lt_succ_self _
  · rw [List.map_append]
    rw [List.nodup_append]
    refine ⟨hwf.2.1, by simp, ?_⟩
    intro a ha hb
    simp only [List.map_cons, List.map_nil, List.mem_singleton] at hb
    obtain ⟨x, hx, hxa⟩ := List.mem_map.mp ha
    have hlt := hwf.1 x hx
    dsimp only at hlt
    rw [hxa] at hlt
    rw [hid] at hb
    omega
  · intro r1 h1 r2 h2 h hh1 hh2
    rcases List.mem_append.mp h1 with h1' | h1' <;>
      rcases List.mem_append.mp h2 with h2' | h2'
    · exact hwf.2.2 r1 h1' r2 h2' h hh1 hh2
    · rw [List.mem_singleton.mp h2'] at hh2 ⊢
      exact absurd (by rw [hh1, hh2]) (hhash r1 h1')
    · rw [List.mem_singleton.mp h1'] at hh1 ⊢
      exact absurd (by rw [hh2, hh1]) (hhash r2 h2')
    · rw [List.mem_singleton.mp h1', List.mem_singleton.mp h2']

/-- A successful upsert preserves store well-formedness. -/
theorem upsert_preserves_wf
    (store : List StoredNotification) (nextId : Nat) (nd : NotificationData)
    (now : Int) (out : UpsertOutcome) (store2 : List StoredNotification)
    (id2 : Nat) (evts : List BroadcastEvent)
    (heq : upsertNotification store nextId nd now = .ok (out, store2, id2, evts))
    (hwf : StoreWF ⟨store, nextId⟩) : StoreWF ⟨store2, id2⟩ := by
  simp only [upsertNotification] at heq
  split at heq
  · rename_i existing hfind
    have hexmem : existing ∈ store := List.mem_of_find?_eq_some hfind
    split at heq
    · split at heq
      · split at heq
        · split at heq
          · simp only [Except.ok.injEq, Prod.mk.injEq] at heq
            obtain ⟨-, h2, h3, -⟩ := heq
            rw [← h2, ← h3]
            exact hwf
          · exact absurd heq (by simp)
        · rename_i hnotdup
          simp only [Except.ok.injEq, Prod.mk.injEq] at heq
          obtain ⟨-, h2, h3, -⟩ := heq
          rw [← h2, ← h3]
          refine storeWF_update store nextId hwf existing
            (applyUpdate existing nd now) hexmem rfl ?_
          by_cases hc : (applyUpdate existing nd now).notificationHash =
              existing.notificationHash
          · exact Or.inl hc
          · refine Or.inr ?_
            intro r hr hrne hrh
            exact hnotdup ⟨hc, r, hr, hrne, hrh⟩
      · exact absurd heq (by simp)
    · simp only [Except.ok.injEq, Prod.mk.injEq] at heq
      obtain ⟨-, h2, h3, -⟩ := heq
      rw [← h2, ← h3]
      exact hwf
  · rename_i hfind
    split at heq
    · split at heq
      · simp only [Except.ok.injEq, Prod.mk.injEq] at heq
        obtain ⟨-, h2, h3, -⟩ := heq
        rw [← h2, ← h3]
        exact hwf
      · rename_i hnone2
        simp only [Except.ok.injEq, Prod.mk.injEq] at heq
        obtain ⟨-, h2, h3, -⟩ := heq
        rw [← h2, ← h3]
        refine storeWF_append store nextId hwf _ rfl ?_
        intro r hr
        have hn := List.find?_eq_none.mp hnone2 r hr
        simpa [hashOnlyFilter] using hn
    · exact absurd heq (by simp)

/-- A successful stock check preserves store well-formedness. -/
theorem checkStock_preserves_wf
    (store : List StoredNotification) (nextId : Nat) (pid pname : Option String)
    (cs ms : Option Int) (now : Int) (resp : CheckStockResponse)
    (store2 : List StoredNotification) (id2 : Nat) (evts : List BroadcastEvent)
    (heq : checkStock store nextId pid pname cs ms now = .ok (resp, store2, id2, evts))
    (hwf : StoreWF ⟨store, nextId⟩) : StoreWF ⟨store2, id2⟩ := by
  simp only [checkStock] at heq
  split at heq
  · simp only [Except.ok.injEq, Prod.mk.injEq] at heq
    obtain ⟨-, h2, h3, -⟩ := heq
    rw [← h2, ← h3]
    exact hwf
  · simp only [Except.ok.injEq, Prod.mk.injEq] at heq
    obtain ⟨-, h2, h3, -⟩ := heq
    rw [← h2, ← h3]
    exact hwf
  · rename_i cs0 ms0
    split at heq
    · split at heq
      · exact absurd heq (by simp)
      · rename_i hup
        simp only [Except.ok.injEq, Prod.mk.injEq] at heq
        obtain ⟨-, h2, h3, -⟩ := heq
        rw [← h2, ← h3]
        exact upsert_preserves_wf _ _ _ _ _ _ _ _ hup hwf
    · split at heq
      · split at heq
        · exact absurd heq (by simp)
        · rename_i hup
          simp only [Except.ok.injEq, Prod.mk.injEq] at heq
          obtain ⟨-, h2, h3, -⟩ := heq
          rw [← h2, ← h3]
          exact upsert_preserves_wf _ _ _ _ _ _ _ _ hup hwf
      · split at heq
        · simp only [Except.ok.injEq, Prod.mk.injEq] at heq
          obtain ⟨-, h2, h3, -⟩ := heq
          rw [← h2, ← h3]
          exact hwf
        · simp only [Except.ok.injEq, Prod.mk.injEq] at heq
          obtain ⟨-, h2, h3, -⟩ := heq
          rw [← h2, ← h3]
          exact storeWF_filter store nextId hwf _

/-- `markReadById` preserves store well-formedness. -/
theorem markRead_preserves_wf
    (store : List StoredNotification) (nextId : Nat) (id : Nat) (now : Int)
    (n : StoredNotification) (store2 : List StoredNotification)
    (evts : List BroadcastEvent)
    (heq : markReadById store id now = .ok (n, store2, evts))
    (hwf : StoreWF ⟨store, nextId⟩) : StoreWF ⟨store2, nextId⟩ := by
  simp only [markReadById] at heq
  split at heq
  · exact absurd heq (by simp)
  · rename_i n0 hfind
    simp only [Except.ok.injEq, Prod.mk.injEq] at heq
    obtain ⟨-, h2, -⟩ := heq
    rw [← h2]
    have hn0 : n0 ∈ store := List.mem_of_find?_eq_some hfind
    have hid0 : n0.id = id := by simpa using List.find?_some hfind
    rw [← hid0]
    exact storeWF_update store nextId hwf n0 _ hn0 rfl (Or.inl rfl)

/-- `resolveById` preserves store well-formedness. -/
theorem resolve_preserves_wf
    (store : List StoredNotification) (nextId : Nat) (id : Nat)
    (note : Option String) (now : Int) (n : StoredNotification)
    (store2 : List StoredNotification) (evts : List BroadcastEvent)
    (heq : resolveById store id note now = .ok (n, store2, evts))
    (hwf : StoreWF ⟨store, nextId⟩) : StoreWF ⟨store2, nextId⟩ := by
  simp only [resolveById] at heq
  split at heq
  · exact absurd heq (by simp)
  · rename_i n0 hfind
    simp only [Except.ok.injEq, Prod.mk.injEq] at heq
    obtain ⟨-, h2, -⟩ := heq
    rw [← h2]
    have hn0 : n0 ∈ store := List.mem_of_find?_eq_some hfind
    have hid0 : n0.id = id := by simpa using List.find?_some hfind
    rw [← hid0]
    exact storeWF_update store nextId hwf n0 _ hn0 rfl (Or.inl rfl)

/-- `markAllRead` preserves store well-formedness. -/
theorem markAllRead_preserves_wf
    (store : List StoredNotification) (nextId : Nat) (now : Int)
    (hwf : StoreWF ⟨store, nextId⟩) :
    StoreWF ⟨(markAllRead store now).1, nextId⟩ := by
  refine storeWF_map store nextId hwf _ ?_ ?_ <;>
    intro r <;> by_cases hc : (!r.isResolved && !r.isRead) = true <;> simp [hc]

/-- `deleteById` preserves store well-formedness. -/
theorem delete_preserves_wf
    (store : List StoredNotification) (nextId : Nat) (id : Nat)
    (store2 : List StoredNotification) (evts : List BroadcastEvent)
    (heq : deleteById store id = .ok (store2, evts))
    (hwf : StoreWF ⟨store, nextId⟩) : StoreWF ⟨store2, nextId⟩ := by
  simp only [deleteById] at heq
  split at heq
  · exact absurd heq (by simp)
  · simp only [Except.ok.injEq, Prod.mk.injEq] at heq
    obtain ⟨h2, -⟩ := heq
    rw [← h2]
    exact storeWF_filter store nextId hwf _

/-- `clearResolved` preserves store well-formedness. -/
theorem clearResolved_preserves_wf
    (store : List StoredNotification) (nextId : Nat)
    (hwf : StoreWF ⟨store, nextId⟩) :
    StoreWF ⟨(clearResolved store).1, nextId⟩ :=
  storeWF_filter store nextId hwf _

/-- The resolution sweep preserves store well-formedness. -/
theorem sweep_preserves_wf
    (store : List StoredNotification) (nextId : Nat) (hash note : String)
    (now : Int) (hwf : StoreWF ⟨store, nextId⟩) :
    StoreWF ⟨(resolveByHashSweep store hash note now).1, nextId⟩ := by
  refine storeWF_map store nextId hwf _ ?_ ?_ <;>
    intro r <;>
    by_cases hc : (r.notificationHash == some hash && !r.isResolved) = true <;>
    simp [hc]

/-- Every router-level step preserves store well-formedness. -/
theorem step_preserves_wf {db db2 : DB} (hstep : Step db db2)
    (hwf : StoreWF db) : StoreWF db2 := by
  cases hstep with
  | upsert nd now out store2 id2 evts heq =>
    exact upsert_preserves_wf _ _ _ _ _ _ _ _ heq hwf
  | stockCheck pid pname cs ms now resp store2 id2 evts heq =>
    exact checkStock_preserves_wf _ _ _ _ _ _ _ _ _ _ _ heq hwf
  | readOne id now n store2 evts heq =>
    exact markRead_preserves_wf _ _ _ _ _ _ _ heq hwf
  | resolveOne id note now n store2 evts heq =>
    exact resolve_preserves_wf _ _ _ _ _ _ _ _ heq hwf
  | readAll now => exact markAllRead_preserves_wf _ _ _ hwf
  | deleteOne id store2 evts heq =>
    exact delete_preserves_wf _ _ _ _ _ heq hwf
  | clearRes => exact clearResolved_preserves_wf _ _ hwf
  | sweep hash note now => exact sweep_preserves_wf _ _ _ _ _ hwf

/-- Every reachable store state is well-formed. -/
theorem reachable_wf (db : DB) (h : Reachable db) : StoreWF db := by
  unfold Reachable at h
  induction h with
  | refl => exact storeWF_empty
  | tail _ hbc ih => exact step_preserves_wf hbc ih

/-! ### Claim C2 — per-hash uniqueness at reachable states -/

/-- C2 (amended): at every reachable store state at most one unresolved
record exists per hash value — but this holds because the sparse UNIQUE
index enforces at most one record per hash OVERALL, resolved or not
(second conjunct): resolved history with the same hash cannot coexist
with any other record. -/
theorem reachable_at_most_one_per_hash (db : DB) (hreach : Reachable db) :
    (∀ r1 ∈ db.store, ∀ r2 ∈ db.store, ∀ h : String,
      r1.isResolved = false → r2.isResolved = false →
      r1.notificationHash = some h → r2.notificationHash = some h → r1 = r2) ∧
    (∀ r1 ∈ db.store, ∀ r2 ∈ db.store, ∀ h : String,
      r1.notificationHash = some h → r2.notificationHash = some h → r1 = r2) := by
  have hwf := reachable_wf db hreach
  exact ⟨fun r1 h1 r2 h2 h _ _ hh1 hh2 => hwf.2.2 r1 h1 r2 h2 h hh1 hh2,
    hwf.2.2⟩

/-- Witness for C2 (amended) at the initial state. -/
theorem reachable_at_most_one_per_hash_witness :
    (∀ r1 ∈ (DB.mk [] 0).store, ∀ r2 ∈ (DB.mk [] 0).store, ∀ h : String,
      r1.isResolved = false → r2.isResolved = false →
      r1.notificationHash = some h → r2.notificationHash = some h → r1 = r2) ∧
    (∀ r1 ∈ (DB.mk [] 0).store, ∀ r2 ∈ (DB.mk [] 0).store, ∀ h : String,
      r1.notificationHash = some h → r2.notificationHash = some h → r1 = r2) :=
  reachable_at_most_one_per_hash ⟨[], 0⟩ Relation.ReflTransGen.refl

/-- Counterexample for C2 as frozen: it is NOT possible for a resolved
notification to coexist in a reachable store with a distinct record
carrying the same hash — the sparse unique index (modelled by the
duplicate-key branch of every insert) excludes it. -/
theorem resolved_coexistence_impossible :
    ¬ ∃ db : DB, Reachable db ∧ ∃ r1 ∈ db.store, ∃ r2 ∈ db.store,
      r1 ≠ r2 ∧ r1.isResolved = true ∧ ∃ h : String,
        r1.notificationHash = some h ∧ r2.notificationHash = some h := by
  rintro ⟨db, hreach, r1, h1, r2, h2, hne, -, h, hh1, hh2⟩
  exact hne ((reachable_wf db hreach).2.2 r1 h1 r2 h2 h hh1 hh2)
